import Mathlib

/-!
# Notification providers: a shallow embedding

Embedding of `internal/notifier` (Gitea commit status, Gitea pull request
comment, Slack, Discord, Grafana, Webex and the shared `postMessage`
pipeline).  Go strings are Lean strings, Go `int`/`int64` are `Int`, a Go
`error` is an `Option String` holding the message (`none` is `nil`), a Go map
is an optional association list (`none` is the nil map), and every call that
leaves the process is recorded in a trace returned next to the error.
-/

set_option autoImplicit false

namespace Notifier

/-! ## Event model (`eventv1.Event`) and the reserved values it is read with -/

/-- The `InvolvedObject` of an event: only the fields the notifiers read. -/
structure ObjectReference where
  Kind : String
  Name : String
  Namespace : String
deriving DecidableEq, Repr

/-- A point in time, as nanoseconds since the Unix epoch. -/
structure Time where
  unixNano : Int
deriving DecidableEq, Repr

/-- `Time.Unix`: whole seconds since the epoch, rounded down. -/
def Time.Unix (t : Time) : Int := Int.fdiv t.unixNano 1000000000

/-- The event consumed by every provider.  `Metadata` is a Go map: `none` is
the nil map, `some kvs` a map whose entries are `kvs`. -/
structure Event where
  InvolvedObject : ObjectReference
  Severity : String
  Timestamp : Time
  Message : String
  Reason : String
  Metadata : Option (List (String × String))
  ReportingController : String
deriving DecidableEq, Repr

def EventSeverityTrace : String := "trace"
def EventSeverityInfo : String := "info"
def EventSeverityError : String := "error"

/-- The reason `meta.ProgressingReason`. -/
def ProgressingReason : String := "Progressing"

def MetaRevisionKey : String := "revision"
def MetaOriginRevisionKey : String := "originRevision"
def MetaCommitStatusKey : String := "commit_status"
def MetaCommitStatusUpdateValue : String := "update"
def MetaChangeRequestKey : String := "change_request"

/-- Reading `m[key]` from a Go map: the value and whether the key is present.
A nil map has no key. -/
def mapGet (m : Option (List (String × String))) (key : String) : Option String :=
  match m with
  | none => none
  | some kvs => kvs.lookup key

/-- The entries a `range` over the map visits (none for the nil map). -/
def mapEntries (m : Option (List (String × String))) : List (String × String) :=
  match m with
  | none => []
  | some kvs => kvs

/-- `Event.HasReason`: the reason equals the given value. -/
def Event.HasReason (e : Event) (reason : String) : Bool :=
  e.Reason == reason

/-- `Event.HasMetadata`: the key is present and holds the given value. -/
def Event.HasMetadata (e : Event) (key val : String) : Bool :=
  match mapGet e.Metadata key with
  | some v => v == val
  | none => false

/-- `Event.GetRevision`: the origin revision when present, else the revision. -/
def Event.GetRevision (e : Event) : Option String :=
  match mapGet e.Metadata MetaOriginRevisionKey with
  | some r => some r
  | none => mapGet e.Metadata MetaRevisionKey

/-! ## Gitea SDK types -/

def StatusPending : String := "pending"
def StatusSuccess : String := "success"
def StatusError : String := "error"
def StatusFailure : String := "failure"
def StatusWarning : String := "warning"

/-- The `gitea.Status` fields read by the notifier; `State` is the SDK's
string type `StatusState`. -/
structure Status where
  State : String
  Description : String
  Context : String
deriving DecidableEq, Repr

structure CreateStatusOption where
  State : String
  TargetURL : String
  Description : String
  Context : String
deriving DecidableEq, Repr

structure ListOptions where
  Page : Int
  PageSize : Int
deriving DecidableEq, Repr

structure ListStatusesOption where
  toListOptions : ListOptions
deriving DecidableEq, Repr

structure ListIssueCommentOptions where
  toListOptions : ListOptions
deriving DecidableEq, Repr

structure EditIssueCommentOption where
  Body : String
deriving DecidableEq, Repr

structure CreateIssueCommentOption where
  Body : String
deriving DecidableEq, Repr

/-- The `gitea.User` field read by the notifier. -/
structure User where
  UserName : String
deriving DecidableEq, Repr

/-- The `gitea.Comment` fields read by the notifier; `Poster` is a pointer and
may be nil. -/
structure Comment where
  ID : Int
  Poster : Option User
  Body : String
deriving DecidableEq, Repr

/-- The SDK client `*gitea.Client`, as the answers the remote side gives to
each method the notifiers call.  An `Except.error` is the method's non-nil
error; `ListStatuses` may answer with a nil slice (`none`). -/
structure Client where
  ListStatuses : String → String → String → ListStatusesOption →
    Except String (Option (List Status))
  CreateStatus : String → String → String → CreateStatusOption → Except String Unit
  ListIssueComments : String → String → Int → ListIssueCommentOptions →
    Except String (List Comment)
  EditIssueComment : String → String → Int → EditIssueCommentOption → Except String Unit
  CreateIssueComment : String → String → Int → CreateIssueCommentOption → Except String Unit

/-- One call made on the SDK client, with its arguments. -/
inductive Call where
  | ListStatuses (owner repo sha : String) (opt : ListStatusesOption)
  | CreateStatus (owner repo sha : String) (opt : CreateStatusOption)
  | ListIssueComments (owner repo : String) (index : Int) (opt : ListIssueCommentOptions)
  | EditIssueComment (owner repo : String) (commentID : Int) (opt : EditIssueCommentOption)
  | CreateIssueComment (owner repo : String) (index : Int) (opt : CreateIssueCommentOption)
deriving DecidableEq, Repr

def Call.isListStatuses : Call → Bool
  | .ListStatuses _ _ _ _ => true
  | _ => false

def Call.isCreateStatus : Call → Bool
  | .CreateStatus _ _ _ _ => true
  | _ => false

def Call.isEditIssueComment : Call → Bool
  | .EditIssueComment _ _ _ _ => true
  | _ => false

def Call.isCreateIssueComment : Call → Bool
  | .CreateIssueComment _ _ _ _ => true
  | _ => false

/-- What a `Post` on an SDK-backed provider returns and did: the error
(`none` is nil) and the SDK calls it made, in order. -/
structure PostResult where
  err : Option String
  calls : List Call
deriving DecidableEq, Repr

/-! ## Functions defined outside the embedded files -/

/-- The embedded struct `changeRequestComment` of the comment providers. -/
structure changeRequestComment where
  ProviderUID : String
  CommentKeyPrefix : String
deriving DecidableEq, Repr

/-- The package helpers and library routines the embedded files call but do
not define (`util.go`, `change_request_comment.go`, `fmt`, `strings`): they are
parameters of the embedding. -/
structure Helpers where
  parseRevision : String → Except String String
  formatNameAndDescription : Event → String × String
  formatCommentBody : changeRequestComment → Event → String
  formatCommentKeyMarker : changeRequestComment → Event → String
  basicAuth : String → String → String
  /-- The verb `%q` of `fmt` on a string. -/
  quote : String → String
  /-- `strings.ToLower`. -/
  toLower : String → String

/-! ## gitea.go: state mapping and duplicate detection -/

/-- `toGiteaState`: the state and the error returned with it. -/
def toGiteaState (event : Event) : String × Option String :=
  if event.HasReason ProgressingReason then
    (StatusPending, none)
  else if event.Severity = EventSeverityInfo then
    (StatusSuccess, none)
  else if event.Severity = EventSeverityError then
    (StatusFailure, none)
  else
    (StatusError, some "can't convert to gitea state")

/-- The `for _, s := range statuses` loop of `duplicateGiteaStatus`. -/
def duplicateGiteaStatusLoop (status : CreateStatusOption) : List Status → Bool
  | [] => false
  | s :: rest =>
    if s.Context = "" ∨ s.State = "" ∨ s.Description = "" then
      duplicateGiteaStatusLoop status rest
    else if s.Context = status.Context then
      if s.State = status.State ∧ s.Description = status.Description then true
      else false
    else
      duplicateGiteaStatusLoop status rest

/-- `duplicateGiteaStatus`: `none` is a nil slice, respectively a nil pointer. -/
def duplicateGiteaStatus (statuses : Option (List Status))
    (status : Option CreateStatusOption) : Bool :=
  match status, statuses with
  | none, _ => false
  | _, none => false
  | some st, some ss => duplicateGiteaStatusLoop st ss

/-- The provider `Gitea`. -/
structure Gitea where
  Owner : String
  Repo : String
  CommitStatus : String
  Client : Client
  Debug : Bool

/-- `Gitea.Post`.  The debug log lines (`g.Debug`) write to the logger only and
are left out. -/
def Gitea.Post (H : Helpers) (g : Gitea) (event : Event) : PostResult :=
  match event.GetRevision with
  | none => ⟨some "missing revision metadata", []⟩
  | some revString =>
    match H.parseRevision revString with
    | .error err => ⟨some err, []⟩
    | .ok rev =>
      match toGiteaState event with
      | (_, some err) => ⟨some err, []⟩
      | (state, none) =>
        let desc := (H.formatNameAndDescription event).2
        let id := g.CommitStatus
        let status : CreateStatusOption :=
          { State := state, TargetURL := "", Description := desc, Context := id }
        let listStatusesOpts : ListStatusesOption := ⟨{ Page := 0, PageSize := 50 }⟩
        let listed := Call.ListStatuses g.Owner g.Repo rev listStatusesOpts
        match g.Client.ListStatuses g.Owner g.Repo rev listStatusesOpts with
        | .error err => ⟨some ("could not list commit statuses: " ++ err), [listed]⟩
        | .ok statuses =>
          if duplicateGiteaStatus statuses (some status) then
            ⟨none, [listed]⟩
          else
            let created := Call.CreateStatus g.Owner g.Repo rev status
            match g.Client.CreateStatus g.Owner g.Repo rev status with
            | .error err => ⟨some err, [listed, created]⟩
            | .ok _ => ⟨none, [listed, created]⟩

/-! ## gitea_pull_request_comment.go -/

/-- Value of a decimal digit byte. -/
def digitValue (c : Char) : Option Nat :=
  if '0' ≤ c ∧ c ≤ '9' then some (c.toNat - '0'.toNat) else none

/-- Reading a run of decimal digits, most significant first. -/
def parseDecimal : List Char → Nat → Option Nat
  | [], acc => some acc
  | c :: cs, acc =>
    match digitValue c with
    | some d => parseDecimal cs (acc * 10 + d)
    | none => none

/-- The part of `strconv.Atoi` after the sign was taken off `s`: one or more
decimal digits, negated when `neg`, the value within the 64-bit `int` range. -/
def atoiDigits (H : Helpers) (s : String) (neg : Bool) (digits : List Char) :
    Except String Int :=
  if digits = [] then
    .error ("strconv.Atoi: parsing " ++ H.quote s ++ ": invalid syntax")
  else
    match parseDecimal digits 0 with
    | none => .error ("strconv.Atoi: parsing " ++ H.quote s ++ ": invalid syntax")
    | some n =>
      if (if neg then -(n : Int) else (n : Int)) < -(2 ^ 63 : Int) ∨
          (2 ^ 63 : Int) ≤ (if neg then -(n : Int) else (n : Int)) then
        .error ("strconv.Atoi: parsing " ++ H.quote s ++ ": value out of range")
      else .ok (if neg then -(n : Int) else (n : Int))

/-- `strconv.Atoi` on a 64-bit platform: an optional sign, then one or more
decimal digits. -/
def Atoi (H : Helpers) (s : String) : Except String Int :=
  match s.data with
  | [] => .error ("strconv.Atoi: parsing " ++ H.quote s ++ ": invalid syntax")
  | c :: cs =>
    if c = '-' then atoiDigits H s true cs
    else if c = '+' then atoiDigits H s false cs
    else atoiDigits H s false (c :: cs)

/-- The provider `GiteaPullRequestComment`. -/
structure GiteaPullRequestComment extends changeRequestComment where
  Owner : String
  Repo : String
  Username : String
  Client : Client

/-- `getPullRequestNumber`. -/
def GiteaPullRequestComment.getPullRequestNumber (H : Helpers)
    (_g : GiteaPullRequestComment) (event : Event) : Except String Int :=
  match mapGet event.Metadata MetaChangeRequestKey with
  | none => .error ("missing " ++ H.quote MetaChangeRequestKey ++ " metadata key")
  | some prStr =>
    match Atoi H prStr with
    | .error err =>
      .error ("invalid " ++ H.quote MetaChangeRequestKey ++ " metadata value "
        ++ H.quote prStr ++ ": " ++ err)
    | .ok prNumber => .ok prNumber

/-- `strings.Contains`. -/
def stringsContains (s substr : String) : Bool :=
  decide (substr.data <:+: s.data)

/-- The scan of `Post` for the provider's own comment carrying the marker: the
first comment of the page that passes the test, or nil. -/
def findExistingComment (username commentKeyMarker : String) :
    List Comment → Option Comment
  | [] => none
  | c :: rest =>
    if (match c.Poster with
        | some poster => poster.UserName == username
        | none => false) && stringsContains c.Body commentKeyMarker then
      some c
    else
      findExistingComment username commentKeyMarker rest

/-- `GiteaPullRequestComment.Post`. -/
def GiteaPullRequestComment.Post (H : Helpers) (g : GiteaPullRequestComment)
    (event : Event) : PostResult :=
  let body := H.formatCommentBody g.tochangeRequestComment event
  match g.getPullRequestNumber H event with
  | .error err => ⟨some err, []⟩
  | .ok prNumber =>
    let opts : ListIssueCommentOptions := ⟨{ Page := 1, PageSize := 100 }⟩
    let listed := Call.ListIssueComments g.Owner g.Repo prNumber opts
    match g.Client.ListIssueComments g.Owner g.Repo prNumber opts with
    | .error err => ⟨some ("failed to list pull request comments: " ++ err), [listed]⟩
    | .ok comments =>
      let commentKeyMarker := H.formatCommentKeyMarker g.tochangeRequestComment event
      match findExistingComment g.Username commentKeyMarker comments with
      | some existingComment =>
        let edited := Call.EditIssueComment g.Owner g.Repo existingComment.ID ⟨body⟩
        match g.Client.EditIssueComment g.Owner g.Repo existingComment.ID ⟨body⟩ with
        | .error err =>
          ⟨some ("failed to update pull request comment: " ++ err), [listed, edited]⟩
        | .ok _ => ⟨none, [listed, edited]⟩
      | none =>
        let created := Call.CreateIssueComment g.Owner g.Repo prNumber ⟨body⟩
        match g.Client.CreateIssueComment g.Owner g.Repo prNumber ⟨body⟩ with
        | .error err =>
          ⟨some ("failed to create pull request comment: " ++ err), [listed, created]⟩
        | .ok _ => ⟨none, [listed, created]⟩

/-! ## client.go: the delivery pipeline -/

/-- A `*tls.Config`, kept by identity only. -/
structure TLSConfig where
  id : Nat
deriving DecidableEq, Repr

/-- An outgoing request: method, address, body and header lines in order. -/
structure Request where
  Method : String
  URL : String
  Body : String
  Header : List (String × String)
deriving DecidableEq, Repr

/-- `Header.Set`: the key keeps this one value. -/
def headerSet (h : List (String × String)) (key value : String) : List (String × String) :=
  h.filter (fun kv => kv.1 != key) ++ [(key, value)]

/-- `Header.Add`: one more value for the key. -/
def headerAdd (h : List (String × String)) (key value : String) : List (String × String) :=
  h ++ [(key, value)]

/-- `Header.Values`: the values held for the key. -/
def headerValues (h : List (String × String)) (key : String) : List String :=
  (h.filter (fun kv => kv.1 == key)).map Prod.snd

/-- A response as `postMessage` reads it: the status code and what reading
the body gave. -/
structure Response where
  StatusCode : Int
  Body : Except String String

structure postOptions where
  proxy : String
  tlsConfig : Option TLSConfig
  requestModifier : Option (Request → Request)
  responseValidator : Int → String → Option String

abbrev postOption := postOptions → postOptions

def withProxy (proxy : String) : postOption :=
  fun opts => { opts with proxy := proxy }

def withTLSConfig (tlsConfig : Option TLSConfig) : postOption :=
  fun opts => { opts with tlsConfig := tlsConfig }

def withRequestModifier (reqModifier : Request → Request) : postOption :=
  fun opts => { opts with requestModifier := some reqModifier }

def withResponseValidator (respValidator : Int → String → Option String) : postOption :=
  fun opts => { opts with responseValidator := respValidator }

/-- Where the transport finds its proxy: the library default reads the
environment, `http.ProxyURL` fixes one. -/
inductive ProxySetting where
  | fromEnvironment
  | fixed (url : String)
deriving DecidableEq, Repr

/-- The retrying client, as the fields `newHTTPClient` reads or writes;
durations are in nanoseconds. -/
structure RetryClient where
  TLSClientConfig : Option TLSConfig
  Proxy : ProxySetting
  Timeout : Int
  RetryWaitMin : Int
  RetryWaitMax : Int
  RetryMax : Int
  hasLogger : Bool
deriving DecidableEq, Repr

/-- The duration `time.Second`. -/
def Second : Int := 1000000000

/-- `retryablehttp.NewClient()`: the library defaults. -/
def retryablehttpNewClient : RetryClient :=
  { TLSClientConfig := none, Proxy := .fromEnvironment, Timeout := 0,
    RetryWaitMin := 1 * Second, RetryWaitMax := 30 * Second, RetryMax := 4,
    hasLogger := true }

structure SlackField where
  Title : String
  Value : String
  Short : Bool
deriving DecidableEq, Repr

structure SlackAttachment where
  Color : String
  AuthorName : String
  Text : String
  MrkdwnIn : List String
  Fields : List SlackField
deriving DecidableEq, Repr

structure SlackPayload where
  Channel : String
  Username : String
  IconUrl : String
  IconEmoji : String
  Text : String
  Attachments : List SlackAttachment
deriving DecidableEq, Repr

structure GraphitePayload where
  When : Int
  Text : String
  Tags : List String
deriving DecidableEq, Repr

structure WebexPayload where
  RoomId : String
  Markdown : String
deriving DecidableEq, Repr

/-- The payloads handed to `postMessage` as `interface{}`. -/
inductive Payload where
  | slack (p : SlackPayload)
  | graphite (p : GraphitePayload)
  | webex (p : WebexPayload)
deriving DecidableEq, Repr

/-- The body of a `chat.postMessage` answer, as `validateSlackResponse`
decodes it. -/
structure slackResponse where
  Ok : Bool
  Error : String
deriving DecidableEq, Repr

/-- The library and network side of the pipeline: URL parsing, JSON encoding
and decoding, request construction, and the answer of the retrying client to a
request (`Do`, retries included). -/
structure Net where
  urlParse : String → Except String String
  jsonMarshal : Payload → Except String String
  unmarshalSlackResponse : String → Except String slackResponse
  newRequestError : String → String → Option String
  Do : RetryClient → Request → Except String Response

/-- What a `Post` on a broadcast provider returns and did: the error and the
requests handed to the client, in order. -/
structure Delivery where
  err : Option String
  sent : List Request
deriving DecidableEq, Repr

/-- `newHTTPClient`. -/
def newHTTPClient (N : Net) (opts : postOptions) : Except String RetryClient :=
  let httpClient := retryablehttpNewClient
  let httpClient :=
    match opts.tlsConfig with
    | some cfg => { httpClient with TLSClientConfig := some cfg }
    | none => httpClient
  let withProxySet : Except String RetryClient :=
    if opts.proxy ≠ "" then
      match N.urlParse opts.proxy with
      | .error err => .error ("unable to parse proxy URL: " ++ err)
      | .ok proxyURL => .ok { httpClient with Proxy := .fixed proxyURL }
    else .ok httpClient
  match withProxySet with
  | .error err => .error err
  | .ok httpClient =>
    .ok { httpClient with
          Timeout := 0, RetryWaitMin := 2 * Second, RetryWaitMax := 30 * Second,
          RetryMax := 4, hasLogger := false }

/-- The default `responseValidator` set up by `postMessage`. -/
def defaultResponseValidator (statusCode : Int) (body : String) : Option String :=
  if statusCode = 200 ∨ statusCode = 202 ∨ statusCode = 201 then none
  else some ("request failed with status code " ++ toString statusCode ++ ", " ++ body)

/-- `postMessage`. -/
def postMessage (N : Net) (address : String) (payload : Payload)
    (opts : List postOption) : Delivery :=
  let options : postOptions :=
    { proxy := "", tlsConfig := none, requestModifier := none,
      responseValidator := defaultResponseValidator }
  let options := opts.foldl (fun acc o => o acc) options
  match newHTTPClient N options with
  | .error err => ⟨some err, []⟩
  | .ok httpClient =>
    match N.jsonMarshal payload with
    | .error err => ⟨some ("marshalling notification payload failed: " ++ err), []⟩
    | .ok data =>
      match N.newRequestError "POST" address with
      | some err => ⟨some ("failed to create a new request: " ++ err), []⟩
      | none =>
        let req : Request := { Method := "POST", URL := address, Body := data, Header := [] }
        let req := { req with Header := headerSet req.Header "Content-Type" "application/json" }
        let req :=
          match options.requestModifier with
          | some modify => modify req
          | none => req
        match N.Do httpClient req with
        | .error err => ⟨some ("failed to execute request: " ++ err), [req]⟩
        | .ok resp =>
          match resp.Body with
          | .error err => ⟨some ("failed to read response body: " ++ err), [req]⟩
          | .ok body =>
            match options.responseValidator resp.StatusCode body with
            | some err => ⟨some ("request failed: " ++ err), [req]⟩
            | none => ⟨none, [req]⟩

/-! ## slack.go, discord.go, grafana.go, webex.go: the broadcast providers -/

/-- The text `fmt.Sprintf("%s/%s.%s", strings.ToLower(Kind), Name, Namespace)`. -/
def objectLine (H : Helpers) (o : ObjectReference) : String :=
  H.toLower o.Kind ++ "/" ++ o.Name ++ "." ++ o.Namespace

/-- The loop `for k, v := range event.Metadata` of `Slack.Post` and
`Discord.Post`, appending one field per entry visited. -/
def slackFields (event : Event) : List SlackField :=
  (mapEntries event.Metadata).foldl (fun sfields kv => sfields ++ [⟨kv.1, kv.2, false⟩]) []

structure Slack where
  URL : String
  ProxyURL : String
  Token : String
  Username : String
  Channel : String
  TLSConfig : Option TLSConfig
deriving DecidableEq, Repr

/-- `validateSlackResponse`. -/
def validateSlackResponse (N : Net) (_statusCode : Int) (body : String) : Option String :=
  match N.unmarshalSlackResponse body with
  | .error err => some ("unable to unmarshal response body: " ++ err)
  | .ok slackResp =>
    if slackResp.Ok then none
    else some ("Slack responded with error: " ++ slackResp.Error)

/-- `Slack.Post`. -/
def Slack.Post (H : Helpers) (N : Net) (s : Slack) (event : Event) : Delivery :=
  if event.HasMetadata MetaCommitStatusKey MetaCommitStatusUpdateValue then
    ⟨none, []⟩
  else
    let payload : SlackPayload :=
      { Channel := "", Username := s.Username, IconUrl := "", IconEmoji := "", Text := "",
        Attachments := [] }
    let payload := if s.Channel ≠ "" then { payload with Channel := s.Channel } else payload
    let payload :=
      if payload.Username = "" then { payload with Username := event.ReportingController }
      else payload
    let color := if event.Severity = EventSeverityError then "danger" else "good"
    let sfields := slackFields event
    let a : SlackAttachment :=
      { Color := color, AuthorName := objectLine H event.InvolvedObject,
        Text := event.Message, MrkdwnIn := ["text"], Fields := sfields }
    let payload := { payload with Attachments := [a] }
    let opts : List postOption :=
      [withRequestModifier (fun request =>
        if s.Token ≠ "" then
          { request with
            Header := headerAdd request.Header "Authorization" ("Bearer " ++ s.Token) }
        else request)]
    let opts := if s.ProxyURL ≠ "" then opts ++ [withProxy s.ProxyURL] else opts
    let opts :=
      match s.TLSConfig with
      | some cfg => opts ++ [withTLSConfig (some cfg)]
      | none => opts
    let opts :=
      if s.URL = "https://slack.com/api/chat.postMessage" then
        opts ++ [withResponseValidator (validateSlackResponse N)]
      else opts
    let r := postMessage N s.URL (.slack payload) opts
    match r.err with
    | some err => ⟨some ("postMessage failed: " ++ err), r.sent⟩
    | none => ⟨none, r.sent⟩

structure Discord where
  URL : String
  ProxyURL : String
  Username : String
  Channel : String
deriving DecidableEq, Repr

/-- `Discord.Post`. -/
def Discord.Post (H : Helpers) (N : Net) (s : Discord) (event : Event) : Delivery :=
  if event.HasMetadata MetaCommitStatusKey MetaCommitStatusUpdateValue then
    ⟨none, []⟩
  else
    let payload : SlackPayload :=
      { Channel := "", Username := s.Username, IconUrl := "", IconEmoji := "", Text := "",
        Attachments := [] }
    let payload :=
      if payload.Username = "" then { payload with Username := event.ReportingController }
      else payload
    let color := if event.Severity = EventSeverityError then "danger" else "good"
    let sfields := slackFields event
    let a : SlackAttachment :=
      { Color := color, AuthorName := objectLine H event.InvolvedObject,
        Text := event.Message, MrkdwnIn := ["text"], Fields := sfields }
    let payload := { payload with Attachments := [a] }
    let opts : List postOption := []
    let opts := if s.ProxyURL ≠ "" then opts ++ [withProxy s.ProxyURL] else opts
    let r := postMessage N s.URL (.slack payload) opts
    match r.err with
    | some err => ⟨some ("postMessage failed: " ++ err), r.sent⟩
    | none => ⟨none, r.sent⟩

structure Grafana where
  URL : String
  Token : String
  ProxyURL : String
  TLSConfig : Option TLSConfig
  Username : String
  Password : String
deriving DecidableEq, Repr

/-- The call `strings.ReplaceAll(s, ":", "|")`. -/
def replaceColons (s : String) : String :=
  String.mk (s.data.map (fun c => if c = ':' then '|' else c))

/-- The tag list built by `Grafana.Post`. -/
def grafanaTags (event : Event) : List String :=
  let sfields : List String := []
  let sfields := sfields ++ ["flux", event.ReportingController]
  let sfields :=
    (mapEntries event.Metadata).foldl
      (fun sfields kv => sfields ++ [replaceColons kv.1 ++ ": " ++ replaceColons kv.2]) sfields
  let sfields := sfields ++ ["kind: " ++ event.InvolvedObject.Kind]
  let sfields := sfields ++ ["name: " ++ event.InvolvedObject.Name]
  let sfields := sfields ++ ["namespace: " ++ event.InvolvedObject.Namespace]
  sfields

/-- The request modifier of `Grafana.Post`. -/
def grafanaRequestModifier (H : Helpers) (g : Grafana) (req : Request) : Request :=
  let req :=
    if (g.Username ≠ "" ∧ g.Password ≠ "") ∧ g.Token = "" then
      { req with
        Header := headerAdd req.Header "Authorization"
          ("Basic " ++ H.basicAuth g.Username g.Password) }
    else req
  if g.Token ≠ "" then
    { req with Header := headerAdd req.Header "Authorization" ("Bearer " ++ g.Token) }
  else req

/-- `Grafana.Post`. -/
def Grafana.Post (H : Helpers) (N : Net) (g : Grafana) (event : Event) : Delivery :=
  if event.HasMetadata MetaCommitStatusKey MetaCommitStatusUpdateValue then
    ⟨none, []⟩
  else
    let payload : GraphitePayload :=
      { When := event.Timestamp.Unix, Text := objectLine H event.InvolvedObject,
        Tags := grafanaTags event }
    let opts : List postOption := [withRequestModifier (grafanaRequestModifier H g)]
    let opts := if g.ProxyURL ≠ "" then opts ++ [withProxy g.ProxyURL] else opts
    let opts :=
      match g.TLSConfig with
      | some cfg => opts ++ [withTLSConfig (some cfg)]
      | none => opts
    let r := postMessage N g.URL (.graphite payload) opts
    match r.err with
    | some err => ⟨some ("postMessage failed: " ++ err), r.sent⟩
    | none => ⟨none, r.sent⟩

structure Webex where
  URL : String
  RoomId : String
  Token : String
  ProxyURL : String
  TLSConfig : Option TLSConfig
deriving DecidableEq, Repr

/-- `Webex.CreateMarkdown`. -/
def Webex.CreateMarkdown (H : Helpers) (_s : Webex) (event : Event) : String :=
  let emoji := if event.Severity = EventSeverityError then "💣" else "✅"
  let b := emoji ++ " **" ++ objectLine H event.InvolvedObject ++ "**\n"
  let b := b ++ event.Message ++ "\n"
  if (mapEntries event.Metadata).length > 0 then
    (mapEntries event.Metadata).foldl
      (fun b kv => b ++ ">**" ++ kv.1 ++ "**: " ++ kv.2 ++ "\n") b
  else b

/-- `Webex.Post`. -/
def Webex.Post (H : Helpers) (N : Net) (s : Webex) (event : Event) : Delivery :=
  if event.HasMetadata MetaCommitStatusKey MetaCommitStatusUpdateValue then
    ⟨none, []⟩
  else
    let payload : WebexPayload :=
      { RoomId := s.RoomId, Markdown := s.CreateMarkdown H event }
    let opts : List postOption :=
      [withRequestModifier (fun req =>
        { req with Header := headerAdd req.Header "Authorization" ("Bearer " ++ s.Token) })]
    let opts := if s.ProxyURL ≠ "" then opts ++ [withProxy s.ProxyURL] else opts
    let opts :=
      match s.TLSConfig with
      | some cfg => opts ++ [withTLSConfig (some cfg)]
      | none => opts
    let r := postMessage N s.URL (.webex payload) opts
    match r.err with
    | some err => ⟨some ("postMessage failed: " ++ err), r.sent⟩
    | none => ⟨none, r.sent⟩

/-! ## The payload and the options each broadcast provider hands to `postMessage` -/

/-- The options `postMessage` starts from. -/
def defaultPostOptions : postOptions :=
  { proxy := "", tlsConfig := none, requestModifier := none,
    responseValidator := defaultResponseValidator }

/-- The options of `postMessage` once every `postOption` was applied. -/
def appliedPostOptions (opts : List postOption) : postOptions :=
  opts.foldl (fun acc o => o acc) defaultPostOptions

/-- The request `postMessage` builds before the request modifier runs. -/
def newPostRequest (address data : String) : Request :=
  { Method := "POST", URL := address, Body := data,
    Header := headerSet [] "Content-Type" "application/json" }

/-- The request after the optional request modifier ran. -/
def modifiedRequest (modifier : Option (Request → Request)) (req : Request) : Request :=
  match modifier with
  | some modify => modify req
  | none => req

/-- The payload built by `Slack.Post`. -/
def slackPayload (H : Helpers) (s : Slack) (event : Event) : SlackPayload :=
  let payload : SlackPayload :=
    { Channel := "", Username := s.Username, IconUrl := "", IconEmoji := "", Text := "",
      Attachments := [] }
  let payload := if s.Channel ≠ "" then { payload with Channel := s.Channel } else payload
  let payload :=
    if payload.Username = "" then { payload with Username := event.ReportingController }
    else payload
  let color := if event.Severity = EventSeverityError then "danger" else "good"
  let sfields := slackFields event
  let a : SlackAttachment :=
    { Color := color, AuthorName := objectLine H event.InvolvedObject,
      Text := event.Message, MrkdwnIn := ["text"], Fields := sfields }
  { payload with Attachments := [a] }

/-- The request modifier of `Slack.Post`. -/
def slackRequestModifier (s : Slack) (request : Request) : Request :=
  if s.Token ≠ "" then
    { request with
      Header := headerAdd request.Header "Authorization" ("Bearer " ++ s.Token) }
  else request

/-- The options built by `Slack.Post`. -/
def slackOptions (N : Net) (s : Slack) : List postOption :=
  let opts : List postOption := [withRequestModifier (slackRequestModifier s)]
  let opts := if s.ProxyURL ≠ "" then opts ++ [withProxy s.ProxyURL] else opts
  let opts :=
    match s.TLSConfig with
    | some cfg => opts ++ [withTLSConfig (some cfg)]
    | none => opts
  if s.URL = "https://slack.com/api/chat.postMessage" then
    opts ++ [withResponseValidator (validateSlackResponse N)]
  else opts

/-- The payload built by `Discord.Post`. -/
def discordPayload (H : Helpers) (s : Discord) (event : Event) : SlackPayload :=
  let payload : SlackPayload :=
    { Channel := "", Username := s.Username, IconUrl := "", IconEmoji := "", Text := "",
      Attachments := [] }
  let payload :=
    if payload.Username = "" then { payload with Username := event.ReportingController }
    else payload
  let color := if event.Severity = EventSeverityError then "danger" else "good"
  let sfields := slackFields event
  let a : SlackAttachment :=
    { Color := color, AuthorName := objectLine H event.InvolvedObject,
      Text := event.Message, MrkdwnIn := ["text"], Fields := sfields }
  { payload with Attachments := [a] }

/-- The payload built by `Grafana.Post`. -/
def grafanaPayload (H : Helpers) (event : Event) : GraphitePayload :=
  { When := event.Timestamp.Unix, Text := objectLine H event.InvolvedObject,
    Tags := grafanaTags event }

/-- The options built by `Grafana.Post`. -/
def grafanaOptions (H : Helpers) (g : Grafana) : List postOption :=
  let opts : List postOption := [withRequestModifier (grafanaRequestModifier H g)]
  let opts := if g.ProxyURL ≠ "" then opts ++ [withProxy g.ProxyURL] else opts
  match g.TLSConfig with
  | some cfg => opts ++ [withTLSConfig (some cfg)]
  | none => opts

/-- The request modifier of `Webex.Post`. -/
def webexRequestModifier (s : Webex) (req : Request) : Request :=
  { req with Header := headerAdd req.Header "Authorization" ("Bearer " ++ s.Token) }

/-- The options built by `Webex.Post`. -/
def webexOptions (s : Webex) : List postOption :=
  let opts : List postOption := [withRequestModifier (webexRequestModifier s)]
  let opts := if s.ProxyURL ≠ "" then opts ++ [withProxy s.ProxyURL] else opts
  match s.TLSConfig with
  | some cfg => opts ++ [withTLSConfig (some cfg)]
  | none => opts

/-- The error wrapping every broadcast `Post` applies to what `postMessage`
returned. -/
def wrapPostMessage (r : Delivery) : Delivery :=
  match r.err with
  | some err => ⟨some ("postMessage failed: " ++ err), r.sent⟩
  | none => ⟨none, r.sent⟩

/-- `Time.UnixMilli`: whole milliseconds since the epoch, rounded down. -/
def Time.UnixMilli (t : Time) : Int := Int.fdiv t.unixNano 1000000

/-! ## gitea_helpers.go and the constructors of the Gitea providers -/

/-- `GiteaClient`: the SDK client and the repository it acts on. -/
structure GiteaClient where
  Owner : String
  Repo : String
  Username : String
  Client : Client

structure giteaClientOptions where
  address : String
  token : String
  proxyURL : String
  tlsConfig : Option TLSConfig
  fetchUserLogin : Bool
deriving DecidableEq, Repr

abbrev GiteaClientOption := giteaClientOptions → giteaClientOptions

def WithGiteaAddress (addr : String) : GiteaClientOption :=
  fun o => { o with address := addr }

def WithGiteaToken (token : String) : GiteaClientOption :=
  fun o => { o with token := token }

def WithGiteaProxyURL (proxyURL : String) : GiteaClientOption :=
  fun o => { o with proxyURL := proxyURL }

def WithGiteaTLSConfig (cfg : Option TLSConfig) : GiteaClientOption :=
  fun o => { o with tlsConfig := cfg }

def WithGiteaFetchUserLogin : GiteaClientOption :=
  fun o => { o with fetchUserLogin := true }

/-- The `http.Transport` `NewGiteaClient` hands to the SDK. -/
structure giteaTransport where
  TLSClientConfig : Option TLSConfig
  Proxy : Option String
deriving DecidableEq, Repr

/-- What construction relies on outside the embedded files: `parseGitAddress`
of `util.go`, the SDK's `NewClient` (which contacts the server) and
`GetMyUserInfo`, and the process environment. -/
structure GiteaSetup where
  parseGitAddress : String → Except String (String × String)
  NewClient : String → String → giteaTransport → Except String Client
  GetMyUserInfo : Client → Except String User
  getenv : String → String

/-- A step of construction that reads the address or leaves the process. -/
inductive SetupStep where
  | parseGitAddress (address : String)
  | NewClient (host token : String) (transport : giteaTransport)
  | GetMyUserInfo
deriving DecidableEq, Repr

/-- The pieces of a text between its `/` characters. -/
def splitSlash : List Char → List (List Char)
  | [] => [[]]
  | c :: cs =>
    if c = '/' then [] :: splitSlash cs
    else
      match splitSlash cs with
      | [] => [[c]]
      | piece :: pieces => (c :: piece) :: pieces

/-- The call `strings.Split(s, "/")`. -/
def stringsSplitSlash (s : String) : List String :=
  (splitSlash s.data).map String.mk

/-- The options after every `GiteaClientOption` was applied to the zero value. -/
def appliedGiteaOptions (opts : List GiteaClientOption) : giteaClientOptions :=
  opts.foldl (fun o opt => opt o)
    { address := "", token := "", proxyURL := "", tlsConfig := none, fetchUserLogin := false }

/-- `NewGiteaClient`: the result and the steps taken, in order. -/
def NewGiteaClient (H : Helpers) (N : Net) (S : GiteaSetup) (opts : List GiteaClientOption) :
    Except String GiteaClient × List SetupStep :=
  let o := appliedGiteaOptions opts
  if o.token = "" then
    (.error "gitea token cannot be empty", [])
  else
    let parsed := SetupStep.parseGitAddress o.address
    match S.parseGitAddress o.address with
    | .error err => (.error err, [parsed])
    | .ok (host, id) =>
      match N.urlParse host with
      | .error err => (.error ("failed parsing host: " ++ err), [parsed])
      | .ok _ =>
        let idComponents := stringsSplitSlash id
        if idComponents.length ≠ 2 then
          (.error ("invalid repository id " ++ H.quote id), [parsed])
        else
          let tr : giteaTransport := { TLSClientConfig := o.tlsConfig, Proxy := none }
          let withProxySet : Except String giteaTransport :=
            if o.proxyURL ≠ "" then
              match N.urlParse o.proxyURL with
              | .error _ => .error "invalid proxy URL"
              | .ok parsedProxyURL => .ok { tr with Proxy := some parsedProxyURL }
            else .ok tr
          match withProxySet with
          | .error err => (.error err, [parsed])
          | .ok tr =>
            let connected := SetupStep.NewClient host o.token tr
            match S.NewClient host o.token tr with
            | .error err =>
              (.error ("failed creating Gitea client: " ++ err), [parsed, connected])
            | .ok client =>
              if o.fetchUserLogin then
                match S.GetMyUserInfo client with
                | .error err =>
                  (.error ("failed to get authenticated user info: " ++ err),
                    [parsed, connected, .GetMyUserInfo])
                | .ok user =>
                  (.ok { Owner := idComponents.getD 0 "", Repo := idComponents.getD 1 "",
                         Username := user.UserName, Client := client },
                    [parsed, connected, .GetMyUserInfo])
              else
                (.ok { Owner := idComponents.getD 0 "", Repo := idComponents.getD 1 "",
                       Username := "", Client := client },
                  [parsed, connected])

/-- `NewGitea`. -/
def NewGitea (H : Helpers) (N : Net) (S : GiteaSetup) (commitStatus : String)
    (opts : List GiteaClientOption) : Except String Gitea × List SetupStep :=
  if commitStatus = "" then
    (.error "commit status cannot be empty", [])
  else
    match NewGiteaClient H N S opts with
    | (.error err, steps) => (.error err, steps)
    | (.ok clientInfo, steps) =>
      (.ok { Owner := clientInfo.Owner, Repo := clientInfo.Repo, CommitStatus := commitStatus,
             Client := clientInfo.Client,
             Debug := S.getenv "NOTIFIER_GITEA_DEBUG" == "true" }, steps)

/-- `NewGiteaPullRequestComment`. -/
def NewGiteaPullRequestComment (H : Helpers) (N : Net) (S : GiteaSetup) (providerUID : String)
    (opts : List GiteaClientOption) : Except String GiteaPullRequestComment × List SetupStep :=
  if providerUID = "" then
    (.error "provider UID cannot be empty", [])
  else
    let opts := opts ++ [WithGiteaFetchUserLogin]
    match NewGiteaClient H N S opts with
    | (.error err, steps) => (.error err, steps)
    | (.ok clientInfo, steps) =>
      (.ok { ProviderUID := providerUID, CommentKeyPrefix := "flux-pr-comment-key",
             Owner := clientInfo.Owner, Repo := clientInfo.Repo,
             Username := clientInfo.Username, Client := clientInfo.Client }, steps)

/-! ## The comment body and its key marker -/

/-- Modelled from the spec: `formatCommentBody` and `formatCommentKeyMarker`
of `change_request_comment.go`, which is not among the embedded files.  The
comment body is free text plus the durable key marker: the marker formatted for
an event is a substring of the body formatted for that event. -/
def bodyEmbedsMarker (H : Helpers) : Prop :=
  ∀ (c : changeRequestComment) (e : Event),
    (H.formatCommentKeyMarker c e).data <:+: (H.formatCommentBody c e).data

/-! ## Predicates the properties are stated with -/

/-- A status is looked at by the duplicate scan only when its context, state
and description are all non-empty. -/
def isCompleteStatus (s : Status) : Bool :=
  s.Context != "" && s.State != "" && s.Description != ""

/-- The test of the comment scan, as a proposition: the comment has a poster,
the poster's name is the given one, and the body contains the marker. -/
def ownMarkedComment (username commentKeyMarker : String) (c : Comment) : Prop :=
  (∃ poster, c.Poster = some poster ∧ poster.UserName = username) ∧
    commentKeyMarker.data <:+: c.Body.data

/-- The number a run of decimal digits denotes. -/
def decimalValue (digits : List Char) : Nat :=
  digits.foldl (fun acc c => acc * 10 + (c.toNat - '0'.toNat)) 0

/-- The string is a decimal numeral for `n`: an optional `+` or `-`, then one
or more digits `0`..`9` denoting the magnitude of `n`, with `n` in the 64-bit
`int` range. -/
def isDecimalNumeral (s : String) (n : Int) : Prop :=
  ∃ sign digits, s.data = sign ++ digits ∧ (sign = [] ∨ sign = ['+'] ∨ sign = ['-']) ∧
    digits ≠ [] ∧ (∀ c ∈ digits, '0' ≤ c ∧ c ≤ '9') ∧
    n = (if sign = ['-'] then -(decimalValue digits : Int) else (decimalValue digits : Int)) ∧
    -(2 ^ 63 : Int) ≤ n ∧ n < 2 ^ 63

/-! ## Sample values used to evaluate the definitions -/

/-- The part of a revision after its last `:` or `/`. -/
def sampleLastComponent (cs : List Char) : List Char :=
  (cs.reverse.takeWhile (fun c => c != ':' && c != '/')).reverse

/-- A sample instance of the helper parameters: the revision is what follows
the last `:` or `/` of a revision holding one, the description is the reason,
the comment marker is built from the key prefix and the provider UID, and the
remaining routines do nothing to their argument. -/
def sampleHelpers : Helpers where
  parseRevision := fun rev =>
    let sha := sampleLastComponent rev.data
    if sha = [] ∨ sha.length = rev.data.length then
      .error ("revision string format incorrect: " ++ rev)
    else .ok (String.mk sha)
  formatNameAndDescription := fun e =>
    (e.InvolvedObject.Kind ++ "/" ++ e.InvolvedObject.Name, e.Reason)
  formatCommentKeyMarker := fun c _ => "<!-- " ++ c.CommentKeyPrefix ++ ":" ++ c.ProviderUID ++ " -->"
  formatCommentBody := fun c e =>
    e.Message ++ "\n\n" ++ "<!-- " ++ c.CommentKeyPrefix ++ ":" ++ c.ProviderUID ++ " -->"
  basicAuth := fun u p => u ++ ":" ++ p
  quote := fun s => "\"" ++ s ++ "\""
  toLower := fun s => s

/-- A remote side that lists the given statuses and comments and accepts
every write. -/
def sampleClient (statuses : Option (List Status)) (comments : List Comment) : Client where
  ListStatuses := fun _ _ _ _ => .ok statuses
  CreateStatus := fun _ _ _ _ => .ok ()
  ListIssueComments := fun _ _ _ _ => .ok comments
  EditIssueComment := fun _ _ _ _ => .ok ()
  CreateIssueComment := fun _ _ _ _ => .ok ()

/-- A remote side whose list calls fail. -/
def sampleFailingClient : Client where
  ListStatuses := fun _ _ _ _ => .error "connection refused"
  CreateStatus := fun _ _ _ _ => .ok ()
  ListIssueComments := fun _ _ _ _ => .error "connection refused"
  EditIssueComment := fun _ _ _ _ => .ok ()
  CreateIssueComment := fun _ _ _ _ => .ok ()

/-- Metadata holding only a revision, `main@sha1:abc123`. -/
def sampleRevisionMetadata : Option (List (String × String)) :=
  some [("revision", "main@sha1:abc123")]

/-- A commit-status provider for `foo/bar` with the label `flux`. -/
def sampleGitea (client : Client) : Gitea :=
  { Owner := "foo", Repo := "bar", CommitStatus := "flux", Client := client, Debug := false }

/-- A comment provider for `foo/bar` acting as `flux-bot`. -/
def samplePullRequestComment (client : Client) : GiteaPullRequestComment :=
  { ProviderUID := "uid-1", CommentKeyPrefix := "flux-pr-comment-key",
    Owner := "foo", Repo := "bar", Username := "flux-bot", Client := client }

/-- A page of comments: one by another user and one without poster, both
carrying the marker of `samplePullRequestComment`, then two by `flux-bot`
carrying it. -/
def sampleComments : List Comment :=
  [⟨1, some ⟨"alice"⟩, "old <!-- flux-pr-comment-key:uid-1 -->"⟩,
   ⟨2, none, "<!-- flux-pr-comment-key:uid-1 -->"⟩,
   ⟨3, some ⟨"flux-bot"⟩, "earlier text\n\n<!-- flux-pr-comment-key:uid-1 -->"⟩,
   ⟨4, some ⟨"flux-bot"⟩, "<!-- flux-pr-comment-key:uid-1 -->"⟩]

/-- A library and network side on which every step succeeds and the remote
answers 200. -/
def sampleNet : Net where
  urlParse := fun u => .ok u
  jsonMarshal := fun _ => .ok "{}"
  unmarshalSlackResponse := fun _ => .ok ⟨true, ""⟩
  newRequestError := fun _ _ => none
  Do := fun _ _ => .ok ⟨200, .ok "ok"⟩

def sampleSlack : Slack :=
  { URL := "https://hooks.slack.com/services/x", ProxyURL := "", Token := "token",
    Username := "", Channel := "general", TLSConfig := none }

def sampleDiscord : Discord :=
  { URL := "https://discord.com/api/webhooks/x/slack", ProxyURL := "", Username := "",
    Channel := "general" }

def sampleGrafana : Grafana :=
  { URL := "https://grafana.example.com/api/annotations", Token := "token", ProxyURL := "",
    TLSConfig := none, Username := "", Password := "" }

def sampleWebex : Webex :=
  { URL := "https://webexapis.com/v1/messages", RoomId := "room", Token := "token",
    ProxyURL := "", TLSConfig := none }

/-- A decoder for three sample bodies of `chat.postMessage`; every other
body fails to decode. -/
def sampleSlackDecode (body : String) : Except String slackResponse :=
  if body = "\x7b\"ok\":true\x7d" then .ok ⟨true, ""⟩
  else if body = "\x7b\"ok\":false,\"error\":\"channel_not_found\"\x7d" then
    .ok ⟨false, "channel_not_found"⟩
  else if body = "{}" then .ok ⟨false, ""⟩
  else .error "invalid character"

/-- The network `sampleNet` with `sampleSlackDecode` as decoder. -/
def sampleSlackNet : Net :=
  { sampleNet with unmarshalSlackResponse := sampleSlackDecode }

/-- A network on which no URL parses. -/
def sampleBadURLNet : Net :=
  { sampleNet with urlParse := fun _ => .error "invalid URL" }

/-- A sample construction side: an address `https://host/id` parses to the
host `https://host` and the id, the SDK connects, and the authenticated user is
`test-user`. -/
def sampleSetup : GiteaSetup where
  parseGitAddress := fun addr =>
    if addr.data.take 8 = "https://".data then
      .ok (String.mk ("https://".data ++ (addr.data.drop 8).takeWhile (fun c => c != '/')),
           String.mk (((addr.data.drop 8).dropWhile (fun c => c != '/')).drop 1))
    else .error ("failed parsing URL " ++ addr)
  NewClient := fun _ _ _ => .ok (sampleClient none [])
  GetMyUserInfo := fun _ => .ok ⟨"test-user"⟩
  getenv := fun _ => ""

/-- An event about a kustomization with the given severity, reason and metadata. -/
def sampleEvent (severity reason : String) (metadata : Option (List (String × String))) :
    Event :=
  { InvolvedObject := { Kind := "Kustomization", Name := "app", Namespace := "flux-system" },
    Severity := severity, Timestamp := ⟨0⟩, Message := "message", Reason := reason,
    Metadata := metadata, ReportingController := "kustomize-controller" }

/-! ## Duplicate detection (`duplicateGiteaStatus`) -/

theorem isCompleteStatus_iff (s : Status) :
    isCompleteStatus s = true ↔ s.Context ≠ "" ∧ s.State ≠ "" ∧ s.Description ≠ "" := by
  simp [isCompleteStatus, and_assoc]

/-- The scan answers true exactly when the first complete status carrying the
target's context agrees with the target on state and description. -/
theorem duplicateGiteaStatusLoop_iff (t : CreateStatusOption) (ss : List Status) :
    duplicateGiteaStatusLoop t ss = true ↔
      ∃ s, ss.find? (fun x => isCompleteStatus x && x.Context == t.Context) = some s ∧
        s.State = t.State ∧ s.Description = t.Description := by
  induction ss with
  | nil => simp [duplicateGiteaStatusLoop]
  | cons s rest ih =>
    unfold duplicateGiteaStatusLoop
    by_cases hc : isCompleteStatus s = true
    · have hc' := (isCompleteStatus_iff s).1 hc
      have hskip : ¬ (s.Context = "" ∨ s.State = "" ∨ s.Description = "") := by
        rintro (h | h | h)
        · exact hc'.1 h
        · exact hc'.2.1 h
        · exact hc'.2.2 h
      rw [if_neg hskip]
      by_cases hctx : s.Context = t.Context
      · rw [if_pos hctx]
        simp [List.find?_cons, hc, hctx]
      · rw [if_neg hctx]
        simp [List.find?_cons, hc, hctx, ih]
    · have hskip : s.Context = "" ∨ s.State = "" ∨ s.Description = "" := by
        by_contra hne
        push_neg at hne
        exact hc ((isCompleteStatus_iff s).2 hne)
      rw [if_pos hskip]
      simp [List.find?_cons, hc, ih]

/-- What the scan of `duplicateGiteaStatus` computes: it returns true if and
only if the first status in list order, among the statuses whose context,
state and description are all non-empty, whose context equals the target's has
the same state and description as the target; when no such status has the
target's context, and when the list is nil, it returns false. -/
theorem duplicateGiteaStatus_first_complete_match (ss : List Status)
    (t : CreateStatusOption) :
    (duplicateGiteaStatus (some ss) (some t) = true ↔
      ∃ s, ss.find? (fun x => isCompleteStatus x && x.Context == t.Context) = some s ∧
        s.State = t.State ∧ s.Description = t.Description) ∧
    (ss.find? (fun x => isCompleteStatus x && x.Context == t.Context) = none →
      duplicateGiteaStatus (some ss) (some t) = false) ∧
    duplicateGiteaStatus none (some t) = false := by
  refine ⟨?_, ?_, rfl⟩
  · exact duplicateGiteaStatusLoop_iff t ss
  · intro hnone
    have h := duplicateGiteaStatusLoop_iff t ss
    rw [hnone] at h
    cases hd : duplicateGiteaStatusLoop t ss with
    | false => simpa [duplicateGiteaStatus] using hd
    | true =>
      obtain ⟨s, hs, _⟩ := h.1 hd
      cases hs

/-- C1 (at the failing input): the first status in list order with the
target's context, the latest one, has state `failure` where the target has
`success`, so by the claim and by the comment on `duplicateGiteaStatus` the
target is no duplicate; yet the code passes over that status for its empty
description and returns true on the older status behind it. -/
theorem duplicateGiteaStatus_latest_context_passed_over :
    ([⟨"failure", "", "flux"⟩, ⟨"success", "reconciliation succeeded", "flux"⟩] :
        List Status).find? (fun x => x.Context == "flux")
      = some ⟨"failure", "", "flux"⟩ ∧
    ("failure" : String) ≠ "success" ∧
    duplicateGiteaStatus
      (some [⟨"failure", "", "flux"⟩, ⟨"success", "reconciliation succeeded", "flux"⟩])
      (some ⟨"success", "", "reconciliation succeeded", "flux"⟩) = true := by
  refine ⟨by decide, by decide, by decide⟩

/-! ## State mapping (`toGiteaState`) -/

/-- C2: an event with the progressing reason maps to Pending without error;
otherwise severity info maps to Success and severity error to Failure without
error, and every other severity gives an error. -/
theorem toGiteaState_mapping (e : Event) :
    (e.Reason = ProgressingReason → toGiteaState e = (StatusPending, none)) ∧
    (e.Reason ≠ ProgressingReason → e.Severity = EventSeverityInfo →
      toGiteaState e = (StatusSuccess, none)) ∧
    (e.Reason ≠ ProgressingReason → e.Severity = EventSeverityError →
      toGiteaState e = (StatusFailure, none)) ∧
    (e.Reason ≠ ProgressingReason → e.Severity ≠ EventSeverityInfo →
      e.Severity ≠ EventSeverityError → ∃ msg, (toGiteaState e).2 = some msg) := by
  refine ⟨?_, ?_, ?_, ?_⟩
  · intro h
    simp [toGiteaState, Event.HasReason, h]
  · intro h hs
    simp [toGiteaState, Event.HasReason, h, hs]
  · intro h hs
    have hne : e.Severity ≠ EventSeverityInfo := by
      rw [hs]; decide
    simp [toGiteaState, Event.HasReason, h, hs, hne]
    intro h2
    exact absurd h2 (by decide)
  · intro h hi he
    simp [toGiteaState, Event.HasReason, h, hi, he]

/-- C2 (evaluated): the four rows of the mapping on sample events. -/
theorem toGiteaState_mapping_witness :
    toGiteaState (sampleEvent "error" "Progressing" none) = (StatusPending, none) ∧
    toGiteaState (sampleEvent "info" "ReconciliationSucceeded" none) = (StatusSuccess, none) ∧
    toGiteaState (sampleEvent "error" "ReconciliationFailed" none) = (StatusFailure, none) ∧
    (∃ msg, (toGiteaState (sampleEvent "trace" "ReconciliationFailed" none)).2 = some msg) :=
  ⟨(toGiteaState_mapping _).1 (by decide),
   (toGiteaState_mapping _).2.1 (by decide) (by decide),
   (toGiteaState_mapping _).2.2.1 (by decide) (by decide),
   (toGiteaState_mapping _).2.2.2 (by decide) (by decide) (by decide)⟩

/-- A state returned without error is Pending, Success or Failure. -/
theorem toGiteaState_ok_state (e : Event) (state : String)
    (h : toGiteaState e = (state, none)) :
    state = StatusPending ∨ state = StatusSuccess ∨ state = StatusFailure := by
  unfold toGiteaState at h
  split_ifs at h
  · exact Or.inl (congrArg Prod.fst h).symm
  · exact Or.inr (Or.inl (congrArg Prod.fst h).symm)
  · exact Or.inr (Or.inr (congrArg Prod.fst h).symm)
  · cases (congrArg Prod.snd h)

/-- C3 (as amended): for every event whose severity is neither info nor error
and whose reason is not the progressing reason, `toGiteaState` returns an
error and `Gitea.Post` fails, having made no call. -/
theorem toGiteaState_unmapped_severity_fails (H : Helpers) (g : Gitea) (e : Event)
    (hinfo : e.Severity ≠ EventSeverityInfo) (herror : e.Severity ≠ EventSeverityError)
    (hreason : e.Reason ≠ ProgressingReason) :
    toGiteaState e = (StatusError, some "can't convert to gitea state") ∧
    (∃ msg, (Gitea.Post H g e).err = some msg) ∧ (Gitea.Post H g e).calls = [] := by
  have hstate : toGiteaState e = (StatusError, some "can't convert to gitea state") := by
    simp [toGiteaState, Event.HasReason, hreason, hinfo, herror]
  refine ⟨hstate, ?_⟩
  cases hrev : e.GetRevision with
  | none => simp [Gitea.Post, hrev]
  | some r =>
    cases hparse : H.parseRevision r with
    | error err => simp [Gitea.Post, hrev, hparse]
    | ok rev => simp [Gitea.Post, hrev, hparse, hstate]

/-- C3 (evaluated): a trace event with another reason than progressing. -/
theorem toGiteaState_unmapped_severity_fails_witness :
    toGiteaState (sampleEvent "trace" "ReconciliationFailed"
        (some [("revision", "main@sha1:abc123")]))
      = (StatusError, some "can't convert to gitea state") ∧
    (∃ msg, (Gitea.Post sampleHelpers (sampleGitea (sampleClient (some []) []))
        (sampleEvent "trace" "ReconciliationFailed"
          (some [("revision", "main@sha1:abc123")]))).err = some msg) ∧
    (Gitea.Post sampleHelpers (sampleGitea (sampleClient (some []) []))
        (sampleEvent "trace" "ReconciliationFailed"
          (some [("revision", "main@sha1:abc123")]))).calls = [] :=
  toGiteaState_unmapped_severity_fails sampleHelpers _ _ (by decide) (by decide) (by decide)

/-- C3 (counterexample): a trace event carrying the progressing reason has a
severity that is neither info nor error, yet it is mapped to Pending without
error and `Gitea.Post` creates the pending status and returns nil. -/
theorem toGiteaState_trace_progressing_counterexample :
    (sampleEvent "trace" "Progressing" (some [("revision", "main@sha1:abc123")])).Severity
      ≠ EventSeverityInfo ∧
    (sampleEvent "trace" "Progressing" (some [("revision", "main@sha1:abc123")])).Severity
      ≠ EventSeverityError ∧
    toGiteaState (sampleEvent "trace" "Progressing" (some [("revision", "main@sha1:abc123")]))
      = (StatusPending, none) ∧
    Gitea.Post sampleHelpers (sampleGitea (sampleClient (some []) []))
        (sampleEvent "trace" "Progressing" (some [("revision", "main@sha1:abc123")]))
      = ⟨none, [Call.ListStatuses "foo" "bar" "abc123" ⟨⟨0, 50⟩⟩,
          Call.CreateStatus "foo" "bar" "abc123" ⟨"pending", "", "Progressing", "flux"⟩]⟩ := by
  refine ⟨by decide, by decide, by decide, by rfl⟩

/-! ## Commit status upsert (`Gitea.Post`) -/

/-- When one element passes `p` and it also passes `q`, it is the first to
pass both. -/
theorem find?_both_of_filter_singleton {α : Type} (p q : α → Bool) (l : List α) (s : α)
    (h : l.filter p = [s]) (hq : q s = true) :
    l.find? (fun x => q x && p x) = some s := by
  induction l with
  | nil => simp at h
  | cons a rest ih =>
    by_cases hp : p a = true
    · rw [List.filter_cons_of_pos hp] at h
      have ha : a = s := (List.cons.inj h).1
      subst ha
      simp [List.find?_cons, hp, hq]
    · rw [List.filter_cons_of_neg hp] at h
      simp [List.find?_cons, hp, ih h]

/-- After a successful prelude and list call, `Gitea.Post` stops at a duplicate. -/
theorem Gitea_Post_of_duplicate (H : Helpers) (g : Gitea) (e : Event)
    (r rev state : String) (statuses : Option (List Status))
    (hrev : e.GetRevision = some r) (hparse : H.parseRevision r = .ok rev)
    (hstate : toGiteaState e = (state, none))
    (hlist : g.Client.ListStatuses g.Owner g.Repo rev ⟨⟨0, 50⟩⟩ = .ok statuses)
    (hdup : duplicateGiteaStatus statuses
      (some ⟨state, "", (H.formatNameAndDescription e).2, g.CommitStatus⟩) = true) :
    Gitea.Post H g e = ⟨none, [Call.ListStatuses g.Owner g.Repo rev ⟨⟨0, 50⟩⟩]⟩ := by
  simp [Gitea.Post, hrev, hparse, hstate, hlist, hdup]

/-- After a successful prelude and list call, `Gitea.Post` creates the target
status when it is no duplicate. -/
theorem Gitea_Post_of_not_duplicate (H : Helpers) (g : Gitea) (e : Event)
    (r rev state : String) (statuses : Option (List Status))
    (hrev : e.GetRevision = some r) (hparse : H.parseRevision r = .ok rev)
    (hstate : toGiteaState e = (state, none))
    (hlist : g.Client.ListStatuses g.Owner g.Repo rev ⟨⟨0, 50⟩⟩ = .ok statuses)
    (hdup : duplicateGiteaStatus statuses
      (some ⟨state, "", (H.formatNameAndDescription e).2, g.CommitStatus⟩) = false) :
    (Gitea.Post H g e).calls =
      [Call.ListStatuses g.Owner g.Repo rev ⟨⟨0, 50⟩⟩,
       Call.CreateStatus g.Owner g.Repo rev
         ⟨state, "", (H.formatNameAndDescription e).2, g.CommitStatus⟩] := by
  simp only [Gitea.Post, hrev, hparse, hstate, hlist, hdup]
  cases g.Client.CreateStatus g.Owner g.Repo rev
      ⟨state, "", (H.formatNameAndDescription e).2, g.CommitStatus⟩ <;> simp

/-- What `Gitea.Post` does on a page with one entry for its label, when label
and description are non-empty: for an event with a valid revision and mappable
state, a non-empty commit-status label and a non-empty target description, and
a listed page holding exactly one entry with the label as context: when that
entry's
state and description equal the target's, `Gitea.Post` makes no create-status
call and returns nil; when its state or description differs, it makes exactly
one create-status call, carrying the target state, description and context. -/
theorem Gitea_Post_single_context_entry (H : Helpers) (g : Gitea) (e : Event)
    (r rev state : String) (page : List Status) (s : Status)
    (hrev : e.GetRevision = some r) (hparse : H.parseRevision r = .ok rev)
    (hstate : toGiteaState e = (state, none))
    (hlist : g.Client.ListStatuses g.Owner g.Repo rev ⟨⟨0, 50⟩⟩ = .ok (some page))
    (hone : page.filter (fun x => x.Context == g.CommitStatus) = [s])
    (hlabel : g.CommitStatus ≠ "")
    (hdesc : (H.formatNameAndDescription e).2 ≠ "") :
    (s.State = state ∧ s.Description = (H.formatNameAndDescription e).2 →
      Gitea.Post H g e = ⟨none, [Call.ListStatuses g.Owner g.Repo rev ⟨⟨0, 50⟩⟩]⟩) ∧
    (¬ (s.State = state ∧ s.Description = (H.formatNameAndDescription e).2) →
      (Gitea.Post H g e).calls.filter Call.isCreateStatus =
        [Call.CreateStatus g.Owner g.Repo rev
          ⟨state, "", (H.formatNameAndDescription e).2, g.CommitStatus⟩]) := by
  have hmem : s ∈ page.filter (fun x => x.Context == g.CommitStatus) := by
    rw [hone]; exact List.mem_singleton.2 rfl
  have hctx : s.Context = g.CommitStatus := by
    simpa using (List.mem_filter.1 hmem).2
  have hstate_ne : state ≠ "" := by
    rcases toGiteaState_ok_state e state hstate with h | h | h <;> rw [h] <;> decide
  constructor
  · rintro ⟨hs, hd⟩
    apply Gitea_Post_of_duplicate H g e r rev state (some page) hrev hparse hstate hlist
    have hcomplete : isCompleteStatus s = true :=
      (isCompleteStatus_iff s).2 ⟨by rw [hctx]; exact hlabel, by rw [hs]; exact hstate_ne,
        by rw [hd]; exact hdesc⟩
    exact (duplicateGiteaStatusLoop_iff _ page).2
      ⟨s, find?_both_of_filter_singleton _ _ page s hone hcomplete, hs, hd⟩
  · intro hdiff
    have hdup : duplicateGiteaStatus (some page)
        (some ⟨state, "", (H.formatNameAndDescription e).2, g.CommitStatus⟩) = false := by
      cases hd : duplicateGiteaStatus (some page)
          (some ⟨state, "", (H.formatNameAndDescription e).2, g.CommitStatus⟩) with
      | false => rfl
      | true =>
        obtain ⟨s', hfind, hs', hd'⟩ := (duplicateGiteaStatusLoop_iff _ page).1 hd
        have hin : s' ∈ page := List.mem_of_find?_eq_some hfind
        have hp := List.find?_some hfind
        have hctx' : s'.Context = g.CommitStatus := by
          simp only [Bool.and_eq_true, beq_iff_eq] at hp
          exact hp.2
        have hmem' : s' ∈ page.filter (fun x => x.Context == g.CommitStatus) :=
          List.mem_filter.2 ⟨hin, by simpa using hctx'⟩
        rw [hone] at hmem'
        have heq : s' = s := List.mem_singleton.1 hmem'
        subst heq
        exact absurd ⟨hs', hd'⟩ hdiff
    rw [Gitea_Post_of_not_duplicate H g e r rev state (some page) hrev hparse hstate hlist hdup]
    rfl

/-- A page whose only `flux` entry is compared with the target of an info
event with a non-empty description. -/
theorem Gitea_Post_single_context_entry_witness :
    (("success" : String) = "success" ∧
        ("ReconciliationSucceeded" : String) =
          (sampleHelpers.formatNameAndDescription
            (sampleEvent "info" "ReconciliationSucceeded" sampleRevisionMetadata)).2 →
      Gitea.Post sampleHelpers
          (sampleGitea (sampleClient
            (some [⟨"success", "build passed", "ci"⟩,
              ⟨"success", "ReconciliationSucceeded", "flux"⟩]) []))
          (sampleEvent "info" "ReconciliationSucceeded" sampleRevisionMetadata)
        = ⟨none, [Call.ListStatuses "foo" "bar" "abc123" ⟨⟨0, 50⟩⟩]⟩) ∧
    (¬ (("success" : String) = "success" ∧
        ("ReconciliationSucceeded" : String) =
          (sampleHelpers.formatNameAndDescription
            (sampleEvent "info" "ReconciliationSucceeded" sampleRevisionMetadata)).2) →
      (Gitea.Post sampleHelpers
          (sampleGitea (sampleClient
            (some [⟨"success", "build passed", "ci"⟩,
              ⟨"success", "ReconciliationSucceeded", "flux"⟩]) []))
          (sampleEvent "info" "ReconciliationSucceeded" sampleRevisionMetadata)).calls.filter
          Call.isCreateStatus
        = [Call.CreateStatus "foo" "bar" "abc123"
            ⟨"success", "",
              (sampleHelpers.formatNameAndDescription
                (sampleEvent "info" "ReconciliationSucceeded" sampleRevisionMetadata)).2,
              "flux"⟩]) :=
  Gitea_Post_single_context_entry sampleHelpers
    (sampleGitea (sampleClient
      (some [⟨"success", "build passed", "ci"⟩,
        ⟨"success", "ReconciliationSucceeded", "flux"⟩]) []))
    (sampleEvent "info" "ReconciliationSucceeded" sampleRevisionMetadata)
    "main@sha1:abc123" "abc123" "success"
    [⟨"success", "build passed", "ci"⟩, ⟨"success", "ReconciliationSucceeded", "flux"⟩]
    ⟨"success", "ReconciliationSucceeded", "flux"⟩
    (by rfl) (by rfl) (by rfl) (by rfl) (by decide) (by decide) (by decide)

/-- C9: when the revision metadata is missing, when the revision does not
parse, and when severity and reason map to no state, `Gitea.Post` returns an
error having made no call at all; and whenever the list-statuses call it made
failed, it returns an error and made no create-status call. -/
theorem Gitea_Post_input_and_list_errors (H : Helpers) (g : Gitea) (e : Event) :
    (e.GetRevision = none → ∃ msg, Gitea.Post H g e = ⟨some msg, []⟩) ∧
    (∀ r err, e.GetRevision = some r → H.parseRevision r = .error err →
      ∃ msg, Gitea.Post H g e = ⟨some msg, []⟩) ∧
    (∀ state err, toGiteaState e = (state, some err) →
      ∃ msg, Gitea.Post H g e = ⟨some msg, []⟩) ∧
    (∀ owner repo sha opt err, Call.ListStatuses owner repo sha opt ∈ (Gitea.Post H g e).calls →
      g.Client.ListStatuses owner repo sha opt = .error err →
      (∃ msg, (Gitea.Post H g e).err = some msg) ∧
      (Gitea.Post H g e).calls.filter Call.isCreateStatus = []) := by
  refine ⟨?_, ?_, ?_, ?_⟩
  · intro hrev
    exact ⟨"missing revision metadata", by simp [Gitea.Post, hrev]⟩
  · intro r err hrev hparse
    exact ⟨err, by simp [Gitea.Post, hrev, hparse]⟩
  · intro state err hstate
    cases hrev : e.GetRevision with
    | none => exact ⟨"missing revision metadata", by simp [Gitea.Post, hrev]⟩
    | some r =>
      cases hparse : H.parseRevision r with
      | error perr => exact ⟨perr, by simp [Gitea.Post, hrev, hparse]⟩
      | ok rev => exact ⟨err, by simp [Gitea.Post, hrev, hparse, hstate]⟩
  · intro owner repo sha opt err hmem hfail
    cases hrev : e.GetRevision with
    | none => simp [Gitea.Post, hrev] at hmem
    | some r =>
      cases hparse : H.parseRevision r with
      | error perr => simp [Gitea.Post, hrev, hparse] at hmem
      | ok rev =>
        rcases hst : toGiteaState e with ⟨state, _ | serr⟩
        · cases hlist : g.Client.ListStatuses g.Owner g.Repo rev ⟨⟨0, 50⟩⟩ with
          | error lerr => simp [Gitea.Post, hrev, hparse, hst, hlist, Call.isCreateStatus]
          | ok statuses =>
            exfalso
            have hcalls : ∀ c ∈ (Gitea.Post H g e).calls, c.isListStatuses = true →
                c = Call.ListStatuses g.Owner g.Repo rev ⟨⟨0, 50⟩⟩ := by
              intro c hc hlc
              simp only [Gitea.Post, hrev, hparse, hst, hlist] at hc
              split at hc
              · simpa using hc
              · split at hc <;> simp at hc <;> rcases hc with hc | hc
                all_goals first
                  | exact hc
                  | (rw [hc] at hlc; simp [Call.isListStatuses] at hlc)
            have := hcalls _ hmem rfl
            injection this with h1 h2 h3 h4
            subst h1 h2 h3 h4
            rw [hlist] at hfail
            cases hfail
        · simp [Gitea.Post, hrev, hparse, hst] at hmem

/-- C9 (evaluated): an event without metadata, an event whose revision has no
separator, a trace event, and a remote side whose list call fails. -/
theorem Gitea_Post_input_and_list_errors_witness :
    (∃ msg, Gitea.Post sampleHelpers (sampleGitea (sampleClient (some []) []))
      (sampleEvent "info" "ReconciliationSucceeded" none) = ⟨some msg, []⟩) ∧
    (∃ msg, Gitea.Post sampleHelpers (sampleGitea (sampleClient (some []) []))
      (sampleEvent "info" "ReconciliationSucceeded" (some [("revision", "abc123")]))
        = ⟨some msg, []⟩) ∧
    (∃ msg, Gitea.Post sampleHelpers (sampleGitea (sampleClient (some []) []))
      (sampleEvent "trace" "ReconciliationSucceeded" sampleRevisionMetadata)
        = ⟨some msg, []⟩) ∧
    ((∃ msg, (Gitea.Post sampleHelpers (sampleGitea sampleFailingClient)
      (sampleEvent "info" "ReconciliationSucceeded" sampleRevisionMetadata)).err = some msg) ∧
     (Gitea.Post sampleHelpers (sampleGitea sampleFailingClient)
      (sampleEvent "info" "ReconciliationSucceeded" sampleRevisionMetadata)).calls.filter
        Call.isCreateStatus = []) :=
  ⟨(Gitea_Post_input_and_list_errors sampleHelpers _ _).1 (by rfl),
   (Gitea_Post_input_and_list_errors sampleHelpers _ _).2.1 "abc123"
     "revision string format incorrect: abc123" (by rfl) (by rfl),
   (Gitea_Post_input_and_list_errors sampleHelpers _ _).2.2.1 "error"
     "can't convert to gitea state" (by rfl),
   (Gitea_Post_input_and_list_errors sampleHelpers (sampleGitea sampleFailingClient)
     (sampleEvent "info" "ReconciliationSucceeded" sampleRevisionMetadata)).2.2.2
     "foo" "bar" "abc123" ⟨⟨0, 50⟩⟩ "connection refused" (by decide) (by rfl)⟩

/-- C10: for an event with severity error, a reason other than the progressing
one and a revision that parses to a commit, `Gitea.Post` against an empty or
nil list of existing statuses makes exactly one create-status call, with state
Failure, the provider's commit-status label as context and an empty target
URL. -/
theorem Gitea_Post_error_event_on_empty_list (H : Helpers) (g : Gitea) (e : Event)
    (r rev : String) (statuses : Option (List Status))
    (hsev : e.Severity = EventSeverityError) (hreason : e.Reason ≠ ProgressingReason)
    (hrev : e.GetRevision = some r) (hparse : H.parseRevision r = .ok rev)
    (hlist : g.Client.ListStatuses g.Owner g.Repo rev ⟨⟨0, 50⟩⟩ = .ok statuses)
    (hempty : statuses = none ∨ statuses = some []) :
    (Gitea.Post H g e).calls =
      [Call.ListStatuses g.Owner g.Repo rev ⟨⟨0, 50⟩⟩,
       Call.CreateStatus g.Owner g.Repo rev
         { State := StatusFailure, TargetURL := "",
           Description := (H.formatNameAndDescription e).2, Context := g.CommitStatus }] ∧
    (Gitea.Post H g e).calls.filter Call.isCreateStatus =
      [Call.CreateStatus g.Owner g.Repo rev
         { State := StatusFailure, TargetURL := "",
           Description := (H.formatNameAndDescription e).2, Context := g.CommitStatus }] := by
  have hstate : toGiteaState e = (StatusFailure, none) := by
    have hne : e.Severity ≠ EventSeverityInfo := by
      rw [hsev]; decide
    have hif : ¬ (EventSeverityError = EventSeverityInfo) := by decide
    simp [toGiteaState, Event.HasReason, hreason, hsev, hif]
  have hdup : duplicateGiteaStatus statuses
      (some ⟨StatusFailure, "", (H.formatNameAndDescription e).2, g.CommitStatus⟩) = false := by
    rcases hempty with h | h <;> rw [h] <;> rfl
  have hcalls := Gitea_Post_of_not_duplicate H g e r rev StatusFailure statuses hrev hparse
    hstate hlist hdup
  refine ⟨hcalls, ?_⟩
  rw [hcalls]
  rfl

/-- C10 (evaluated): an error event with reason `ProgressingWithRetry` and a
revision, against an empty list and against a nil list. -/
theorem Gitea_Post_error_event_on_empty_list_witness :
    ((Gitea.Post sampleHelpers (sampleGitea (sampleClient (some []) []))
        (sampleEvent "error" "ProgressingWithRetry" sampleRevisionMetadata)).calls =
      [Call.ListStatuses "foo" "bar" "abc123" ⟨⟨0, 50⟩⟩,
       Call.CreateStatus "foo" "bar" "abc123"
         { State := StatusFailure, TargetURL := "",
           Description := "ProgressingWithRetry", Context := "flux" }] ∧
     (Gitea.Post sampleHelpers (sampleGitea (sampleClient (some []) []))
        (sampleEvent "error" "ProgressingWithRetry" sampleRevisionMetadata)).calls.filter
          Call.isCreateStatus =
      [Call.CreateStatus "foo" "bar" "abc123"
         { State := StatusFailure, TargetURL := "",
           Description := "ProgressingWithRetry", Context := "flux" }]) ∧
    (Gitea.Post sampleHelpers (sampleGitea (sampleClient none []))
        (sampleEvent "error" "ProgressingWithRetry" sampleRevisionMetadata)).calls.filter
          Call.isCreateStatus =
      [Call.CreateStatus "foo" "bar" "abc123"
         { State := StatusFailure, TargetURL := "",
           Description := "ProgressingWithRetry", Context := "flux" }] :=
  ⟨Gitea_Post_error_event_on_empty_list sampleHelpers
      (sampleGitea (sampleClient (some []) []))
      (sampleEvent "error" "ProgressingWithRetry" sampleRevisionMetadata)
      "main@sha1:abc123" "abc123" (some []) (by decide) (by decide) (by rfl) (by rfl) (by rfl)
      (Or.inr rfl),
   (Gitea_Post_error_event_on_empty_list sampleHelpers
      (sampleGitea (sampleClient none []))
      (sampleEvent "error" "ProgressingWithRetry" sampleRevisionMetadata)
      "main@sha1:abc123" "abc123" none (by decide) (by decide) (by rfl) (by rfl) (by rfl)
      (Or.inl rfl)).2⟩

/-! ## Pull request comment upsert (`GiteaPullRequestComment.Post`) -/

/-- The loop test of `findExistingComment` is `ownMarkedComment`. -/
theorem ownMarkedComment_iff (username commentKeyMarker : String) (c : Comment) :
    ((match c.Poster with
      | some poster => poster.UserName == username
      | none => false) && stringsContains c.Body commentKeyMarker) = true ↔
      ownMarkedComment username commentKeyMarker c := by
  unfold ownMarkedComment stringsContains
  cases hp : c.Poster with
  | none => simp
  | some poster => simp

/-- The scan returns the first comment that passes the test. -/
theorem findExistingComment_of_first (username commentKeyMarker : String)
    (pre post : List Comment) (c : Comment)
    (hc : ownMarkedComment username commentKeyMarker c)
    (hpre : ∀ x ∈ pre, ¬ ownMarkedComment username commentKeyMarker x) :
    findExistingComment username commentKeyMarker (pre ++ c :: post) = some c := by
  induction pre with
  | nil =>
    simp only [List.nil_append, findExistingComment]
    rw [if_pos ((ownMarkedComment_iff username commentKeyMarker c).2 hc)]
  | cons a rest ih =>
    have ha : ¬ ownMarkedComment username commentKeyMarker a := hpre a (List.mem_cons_self _ _)
    have hrest : ∀ x ∈ rest, ¬ ownMarkedComment username commentKeyMarker x :=
      fun x hx => hpre x (List.mem_cons_of_mem _ hx)
    simp only [List.cons_append, findExistingComment]
    rw [if_neg (fun h => ha ((ownMarkedComment_iff username commentKeyMarker a).1 h))]
    exact ih hrest

/-- The scan returns nil when no comment passes the test. -/
theorem findExistingComment_of_none (username commentKeyMarker : String)
    (comments : List Comment)
    (hall : ∀ x ∈ comments, ¬ ownMarkedComment username commentKeyMarker x) :
    findExistingComment username commentKeyMarker comments = none := by
  induction comments with
  | nil => rfl
  | cons a rest ih =>
    have ha : ¬ ownMarkedComment username commentKeyMarker a := hall a (List.mem_cons_self _ _)
    simp only [findExistingComment]
    rw [if_neg (fun h => ha ((ownMarkedComment_iff username commentKeyMarker a).1 h))]
    exact ih (fun x hx => hall x (List.mem_cons_of_mem _ hx))

/-- C5: for an event with a numeric change-request number and a first page of
comments returned by the list call: when some comment has a poster named as
the provider's `Username` and a body containing the key marker, `Post` makes
exactly one edit, on the id of the first such comment in list order, and no
create; when there is no such comment, it makes exactly one create on that
pull request number and no edit. -/
theorem GiteaPullRequestComment_Post_upsert (H : Helpers) (g : GiteaPullRequestComment)
    (e : Event) (n : Int) (comments : List Comment)
    (hnum : g.getPullRequestNumber H e = .ok n)
    (hlist : g.Client.ListIssueComments g.Owner g.Repo n ⟨⟨1, 100⟩⟩ = .ok comments) :
    (∀ pre c post, comments = pre ++ c :: post →
      ownMarkedComment g.Username (H.formatCommentKeyMarker g.tochangeRequestComment e) c →
      (∀ x ∈ pre,
        ¬ ownMarkedComment g.Username (H.formatCommentKeyMarker g.tochangeRequestComment e) x) →
      (GiteaPullRequestComment.Post H g e).calls =
        [Call.ListIssueComments g.Owner g.Repo n ⟨⟨1, 100⟩⟩,
         Call.EditIssueComment g.Owner g.Repo c.ID
           ⟨H.formatCommentBody g.tochangeRequestComment e⟩]) ∧
    ((∀ x ∈ comments,
        ¬ ownMarkedComment g.Username (H.formatCommentKeyMarker g.tochangeRequestComment e) x) →
      (GiteaPullRequestComment.Post H g e).calls =
        [Call.ListIssueComments g.Owner g.Repo n ⟨⟨1, 100⟩⟩,
         Call.CreateIssueComment g.Owner g.Repo n
           ⟨H.formatCommentBody g.tochangeRequestComment e⟩]) := by
  constructor
  · intro pre c post hsplit hc hpre
    have hfind := findExistingComment_of_first g.Username
      (H.formatCommentKeyMarker g.tochangeRequestComment e) pre post c hc hpre
    rw [← hsplit] at hfind
    simp only [GiteaPullRequestComment.Post, hnum, hlist, hfind]
    cases g.Client.EditIssueComment g.Owner g.Repo c.ID
      ⟨H.formatCommentBody g.tochangeRequestComment e⟩ <;> rfl
  · intro hall
    have hfind := findExistingComment_of_none g.Username
      (H.formatCommentKeyMarker g.tochangeRequestComment e) comments hall
    simp only [GiteaPullRequestComment.Post, hnum, hlist, hfind]
    cases g.Client.CreateIssueComment g.Owner g.Repo n
      ⟨H.formatCommentBody g.tochangeRequestComment e⟩ <;> rfl

/-- C5 (evaluated): on `sampleComments` the edit goes to comment 3, the first
by `flux-bot` with the marker; on the first two comments alone, by another
user and without poster, a comment is created on pull request 42. -/
theorem GiteaPullRequestComment_Post_upsert_witness :
    (GiteaPullRequestComment.Post sampleHelpers
        (samplePullRequestComment (sampleClient none sampleComments))
        (sampleEvent "info" "ReconciliationSucceeded" (some [("change_request", "42")]))).calls =
      [Call.ListIssueComments "foo" "bar" 42 ⟨⟨1, 100⟩⟩,
       Call.EditIssueComment "foo" "bar" 3
         ⟨"message\n\n<!-- flux-pr-comment-key:uid-1 -->"⟩] ∧
    (GiteaPullRequestComment.Post sampleHelpers
        (samplePullRequestComment (sampleClient none (sampleComments.take 2)))
        (sampleEvent "info" "ReconciliationSucceeded" (some [("change_request", "42")]))).calls =
      [Call.ListIssueComments "foo" "bar" 42 ⟨⟨1, 100⟩⟩,
       Call.CreateIssueComment "foo" "bar" 42
         ⟨"message\n\n<!-- flux-pr-comment-key:uid-1 -->"⟩] :=
  ⟨(GiteaPullRequestComment_Post_upsert sampleHelpers
      (samplePullRequestComment (sampleClient none sampleComments))
      (sampleEvent "info" "ReconciliationSucceeded" (some [("change_request", "42")]))
      42 sampleComments (by rfl) (by rfl)).1
      (sampleComments.take 2)
      ⟨3, some ⟨"flux-bot"⟩, "earlier text\n\n<!-- flux-pr-comment-key:uid-1 -->"⟩
      [⟨4, some ⟨"flux-bot"⟩, "<!-- flux-pr-comment-key:uid-1 -->"⟩]
      (by rfl)
      ⟨⟨⟨"flux-bot"⟩, rfl, rfl⟩, by decide⟩
      (by
        intro x hx
        have hx' : x = ⟨1, some ⟨"alice"⟩, "old <!-- flux-pr-comment-key:uid-1 -->"⟩ ∨
            x = ⟨2, none, "<!-- flux-pr-comment-key:uid-1 -->"⟩ := by
          simpa [sampleComments] using hx
        rcases hx' with h | h <;> subst h <;> rintro ⟨⟨poster, hp, hname⟩, _⟩
        · cases hp
          exact absurd hname (by decide)
        · cases hp),
   (GiteaPullRequestComment_Post_upsert sampleHelpers
      (samplePullRequestComment (sampleClient none (sampleComments.take 2)))
      (sampleEvent "info" "ReconciliationSucceeded" (some [("change_request", "42")]))
      42 (sampleComments.take 2) (by rfl) (by rfl)).2
      (by
        intro x hx
        have hx' : x = ⟨1, some ⟨"alice"⟩, "old <!-- flux-pr-comment-key:uid-1 -->"⟩ ∨
            x = ⟨2, none, "<!-- flux-pr-comment-key:uid-1 -->"⟩ := by
          simpa [sampleComments] using hx
        rcases hx' with h | h <;> subst h <;> rintro ⟨⟨poster, hp, hname⟩, _⟩
        · cases hp
          exact absurd hname (by decide)
        · cases hp)⟩

/-! ## Default response validator (`postMessage`) -/

/-- A string contains each piece it is concatenated from. -/
theorem stringsContains_middle (a b c : String) :
    stringsContains (a ++ b ++ c) b = true := by
  unfold stringsContains
  simp only [String.data_append, decide_eq_true_eq]
  exact ⟨a.data, c.data, rfl⟩

/-- A string contains its own end. -/
theorem stringsContains_end (a b : String) : stringsContains (a ++ b) b = true := by
  unfold stringsContains
  simp only [String.data_append, decide_eq_true_eq]
  exact ⟨a.data, [], by simp⟩

/-- C6: the default response validator returns no error exactly when the
status code is 200, 201 or 202; for every other status code it returns an
error whose message contains the decimal status code and the response body. -/
theorem defaultResponseValidator_accepts_exactly (statusCode : Int) (body : String) :
    (defaultResponseValidator statusCode body = none ↔
      statusCode = 200 ∨ statusCode = 201 ∨ statusCode = 202) ∧
    (¬ (statusCode = 200 ∨ statusCode = 201 ∨ statusCode = 202) →
      ∃ msg, defaultResponseValidator statusCode body = some msg ∧
        stringsContains msg (toString statusCode) = true ∧
        stringsContains msg body = true) := by
  constructor
  · unfold defaultResponseValidator
    constructor
    · intro h
      split_ifs at h with hc
      rcases hc with hc | hc | hc
      · exact Or.inl hc
      · exact Or.inr (Or.inr hc)
      · exact Or.inr (Or.inl hc)
    · intro h
      rw [if_pos]
      rcases h with h | h | h
      · exact Or.inl h
      · exact Or.inr (Or.inr h)
      · exact Or.inr (Or.inl h)
  · intro h
    have hc : ¬ (statusCode = 200 ∨ statusCode = 202 ∨ statusCode = 201) := by
      rintro (hc | hc | hc)
      · exact h (Or.inl hc)
      · exact h (Or.inr (Or.inr hc))
      · exact h (Or.inr (Or.inl hc))
    refine ⟨"request failed with status code " ++ toString statusCode ++ ", " ++ body, ?_, ?_, ?_⟩
    · unfold defaultResponseValidator
      rw [if_neg hc]
    · have := stringsContains_middle "request failed with status code " (toString statusCode)
        (", " ++ body)
      simpa [String.append_assoc] using this
    · exact stringsContains_end _ body

/-- C6 (evaluated): 200, 201 and 202 pass, 404 is refused with a message
holding `404` and the body. -/
theorem defaultResponseValidator_accepts_exactly_witness :
    defaultResponseValidator 200 "ok" = none ∧
    defaultResponseValidator 201 "ok" = none ∧
    defaultResponseValidator 202 "ok" = none ∧
    (∃ msg, defaultResponseValidator 404 "not found" = some msg ∧
      stringsContains msg (toString (404 : Int)) = true ∧
      stringsContains msg "not found" = true) :=
  ⟨(defaultResponseValidator_accepts_exactly 200 "ok").1.2 (Or.inl rfl),
   (defaultResponseValidator_accepts_exactly 201 "ok").1.2 (Or.inr (Or.inl rfl)),
   (defaultResponseValidator_accepts_exactly 202 "ok").1.2 (Or.inr (Or.inr rfl)),
   (defaultResponseValidator_accepts_exactly 404 "not found").2 (by decide)⟩

/-! ## Commit-status updates are not broadcast -/

/-- C7: for every event whose metadata holds the commit-status key with the
update value, `Post` of Slack, Discord, Grafana and Webex returns nil and hands
no request to the client, whatever the provider configuration, the library and
network behaviour and the rest of the event. -/
theorem broadcast_Post_skips_commit_status_update (H : Helpers) (N : Net) (e : Event)
    (h : mapGet e.Metadata MetaCommitStatusKey = some MetaCommitStatusUpdateValue) :
    (∀ s : Slack, Slack.Post H N s e = ⟨none, []⟩) ∧
    (∀ s : Discord, Discord.Post H N s e = ⟨none, []⟩) ∧
    (∀ g : Grafana, Grafana.Post H N g e = ⟨none, []⟩) ∧
    (∀ s : Webex, Webex.Post H N s e = ⟨none, []⟩) := by
  have hm : e.HasMetadata MetaCommitStatusKey MetaCommitStatusUpdateValue = true := by
    simp [Event.HasMetadata, h]
  refine ⟨?_, ?_, ?_, ?_⟩
  · intro s
    unfold Slack.Post
    rw [if_pos hm]
  · intro s
    unfold Discord.Post
    rw [if_pos hm]
  · intro g
    unfold Grafana.Post
    rw [if_pos hm]
  · intro s
    unfold Webex.Post
    rw [if_pos hm]

/-- C7 (evaluated): an event marked as a commit-status update, on four sample
providers and a network on which a request would succeed. -/
theorem broadcast_Post_skips_commit_status_update_witness :
    Slack.Post sampleHelpers sampleNet sampleSlack
      (sampleEvent "info" "ReconciliationSucceeded"
        (some [("revision", "main@sha1:abc123"), ("commit_status", "update")])) = ⟨none, []⟩ ∧
    Discord.Post sampleHelpers sampleNet sampleDiscord
      (sampleEvent "info" "ReconciliationSucceeded"
        (some [("revision", "main@sha1:abc123"), ("commit_status", "update")])) = ⟨none, []⟩ ∧
    Grafana.Post sampleHelpers sampleNet sampleGrafana
      (sampleEvent "info" "ReconciliationSucceeded"
        (some [("revision", "main@sha1:abc123"), ("commit_status", "update")])) = ⟨none, []⟩ ∧
    Webex.Post sampleHelpers sampleNet sampleWebex
      (sampleEvent "info" "ReconciliationSucceeded"
        (some [("revision", "main@sha1:abc123"), ("commit_status", "update")])) = ⟨none, []⟩ :=
  ⟨(broadcast_Post_skips_commit_status_update sampleHelpers sampleNet _ (by decide)).1
      sampleSlack,
   (broadcast_Post_skips_commit_status_update sampleHelpers sampleNet _ (by decide)).2.1
      sampleDiscord,
   (broadcast_Post_skips_commit_status_update sampleHelpers sampleNet _ (by decide)).2.2.1
      sampleGrafana,
   (broadcast_Post_skips_commit_status_update sampleHelpers sampleNet _ (by decide)).2.2.2
      sampleWebex⟩

/-! ## Change-request number (`getPullRequestNumber`) -/

/-- Reading digits succeeds exactly on runs of digits and gives their value. -/
theorem parseDecimal_eq_some_iff (ds : List Char) (acc v : Nat) :
    parseDecimal ds acc = some v ↔
      (∀ c ∈ ds, '0' ≤ c ∧ c ≤ '9') ∧
        v = ds.foldl (fun a c => a * 10 + (c.toNat - '0'.toNat)) acc := by
  induction ds generalizing acc with
  | nil => simp [parseDecimal, eq_comm]
  | cons c cs ih =>
    unfold parseDecimal digitValue
    by_cases hc : '0' ≤ c ∧ c ≤ '9'
    · simp only [if_pos hc, List.mem_cons, forall_eq_or_imp, List.foldl_cons]
      rw [ih]
      tauto
    · simp only [if_neg hc, List.mem_cons, forall_eq_or_imp]
      constructor
      · intro h; cases h
      · intro h; exact absurd h.1.1 hc

/-- When the digits of `Atoi` are accepted. -/
theorem atoiDigits_eq_ok_iff (H : Helpers) (s : String) (neg : Bool) (digits : List Char)
    (n : Int) :
    atoiDigits H s neg digits = .ok n ↔
      digits ≠ [] ∧ (∀ c ∈ digits, '0' ≤ c ∧ c ≤ '9') ∧
      n = (if neg then -(decimalValue digits : Int) else (decimalValue digits : Int)) ∧
      -(2 ^ 63 : Int) ≤ n ∧ n < 2 ^ 63 := by
  unfold atoiDigits
  by_cases hempty : digits = []
  · rw [if_pos hempty]
    constructor
    · intro h; cases h
    · intro h; exact absurd hempty h.1
  · rw [if_neg hempty]
    cases hp : parseDecimal digits 0 with
    | none =>
      constructor
      · intro h; cases h
      · rintro ⟨_, hall, _⟩
        have := (parseDecimal_eq_some_iff digits 0 (decimalValue digits)).2 ⟨hall, rfl⟩
        rw [hp] at this
        cases this
    | some m =>
      obtain ⟨hall, hm⟩ := (parseDecimal_eq_some_iff digits 0 m).1 hp
      have hm' : m = decimalValue digits := hm
      subst hm'
      show (if _ then _ else _) = _ ↔ _
      by_cases hr : (if neg then -(decimalValue digits : Int) else (decimalValue digits : Int))
            < -(2 ^ 63 : Int) ∨
          (2 ^ 63 : Int) ≤
            (if neg then -(decimalValue digits : Int) else (decimalValue digits : Int))
      · rw [if_pos hr]
        constructor
        · intro h; cases h
        · rintro ⟨_, _, hn, h1, h2⟩
          rw [← hn] at hr
          omega
      · rw [if_neg hr]
        constructor
        · intro h
          injection h with h
          refine ⟨hempty, hall, h.symm, ?_, ?_⟩ <;> rw [← h] <;> omega
        · rintro ⟨_, _, hn, _, _⟩
          rw [hn]

/-- `Atoi` returns `n` exactly on the decimal numerals for `n`. -/
theorem Atoi_eq_ok_iff (H : Helpers) (s : String) (n : Int) :
    Atoi H s = .ok n ↔ isDecimalNumeral s n := by
  unfold isDecimalNumeral
  cases hdata : s.data with
  | nil =>
    simp only [Atoi, hdata]
    constructor
    · intro h; cases h
    · rintro ⟨sign, digits, hsplit, _, hne, _⟩
      have := List.append_eq_nil.1 hsplit.symm
      exact absurd this.2 hne
  | cons c cs =>
    simp only [Atoi, hdata]
    by_cases hminus : c = '-'
    · rw [if_pos hminus, atoiDigits_eq_ok_iff]
      subst hminus
      constructor
      · rintro ⟨hne, hall, hn, hr⟩
        exact ⟨['-'], cs, rfl, Or.inr (Or.inr rfl), hne, hall, by simpa using hn, hr⟩
      · rintro ⟨sign, digits, hsplit, hsign, hne, hall, hn, hr⟩
        rcases hsign with h | h | h <;> subst h
        · exfalso
          simp only [List.nil_append] at hsplit
          have hmem : '-' ∈ digits := by rw [← hsplit]; exact List.mem_cons_self _ _
          exact absurd (hall _ hmem).1 (by decide)
        · simp at hsplit
        · simp only [List.singleton_append, List.cons.injEq, true_and] at hsplit
          subst hsplit
          exact ⟨hne, hall, by simpa using hn, hr⟩
    · rw [if_neg hminus]
      by_cases hplus : c = '+'
      · rw [if_pos hplus, atoiDigits_eq_ok_iff]
        subst hplus
        constructor
        · rintro ⟨hne, hall, hn, hr⟩
          exact ⟨['+'], cs, rfl, Or.inr (Or.inl rfl), hne, hall, by simpa using hn, hr⟩
        · rintro ⟨sign, digits, hsplit, hsign, hne, hall, hn, hr⟩
          rcases hsign with h | h | h <;> subst h
          · exfalso
            simp only [List.nil_append] at hsplit
            have hmem : '+' ∈ digits := by rw [← hsplit]; exact List.mem_cons_self _ _
            exact absurd (hall _ hmem).1 (by decide)
          · simp only [List.singleton_append, List.cons.injEq, true_and] at hsplit
            subst hsplit
            exact ⟨hne, hall, by simpa using hn, hr⟩
          · simp at hsplit
      · rw [if_neg hplus, atoiDigits_eq_ok_iff]
        constructor
        · rintro ⟨hne, hall, hn, hr⟩
          exact ⟨[], c :: cs, rfl, Or.inl rfl, hne, hall, by simpa using hn, hr⟩
        · rintro ⟨sign, digits, hsplit, hsign, hne, hall, hn, hr⟩
          rcases hsign with h | h | h <;> subst h
          · simp only [List.nil_append] at hsplit
            subst hsplit
            exact ⟨hne, hall, by simpa using hn, hr⟩
          · simp only [List.singleton_append, List.cons.injEq] at hsplit
            exact absurd hsplit.1 hplus
          · simp only [List.singleton_append, List.cons.injEq] at hsplit
            exact absurd hsplit.1 hminus

/-- The digits the library prints for a number denote it. -/
theorem toDigitsCore_decimal (fuel : Nat) : ∀ (n : Nat) (ds : List Char), n < fuel →
    ∃ pre, Nat.toDigitsCore 10 fuel n ds = pre ++ ds ∧ pre ≠ [] ∧
      (∀ c ∈ pre, '0' ≤ c ∧ c ≤ '9') ∧
      ∀ acc, pre.foldl (fun a c => a * 10 + (c.toNat - '0'.toNat)) acc
        = acc * 10 ^ pre.length + n := by
  have hdig : ∀ k < 10, '0' ≤ Nat.digitChar k ∧ Nat.digitChar k ≤ '9' ∧
      (Nat.digitChar k).toNat - '0'.toNat = k := by decide
  induction fuel with
  | zero => intro n ds h; omega
  | succ fuel ih =>
    intro n ds hn
    have hk := hdig (n % 10) (Nat.mod_lt _ (by norm_num))
    unfold Nat.toDigitsCore
    by_cases h0 : n / 10 = 0
    · simp only [h0, if_true]
      refine ⟨[Nat.digitChar (n % 10)], rfl, by simp, ?_, ?_⟩
      · intro c hc
        rw [List.mem_singleton] at hc
        rw [hc]; exact ⟨hk.1, hk.2.1⟩
      · intro acc
        simp only [List.foldl_cons, List.foldl_nil, List.length_singleton, pow_one]
        rw [hk.2.2]
        have : n % 10 = n := by omega
        omega
    · simp only [h0, if_false]
      obtain ⟨pre, hpre, _, hall, hval⟩ :=
        ih (n / 10) (Nat.digitChar (n % 10) :: ds) (by omega)
      refine ⟨pre ++ [Nat.digitChar (n % 10)], ?_, by simp, ?_, ?_⟩
      · rw [hpre]; simp
      · intro c hc
        rw [List.mem_append, List.mem_singleton] at hc
        rcases hc with hc | hc
        · exact hall c hc
        · rw [hc]; exact ⟨hk.1, hk.2.1⟩
      · intro acc
        rw [List.foldl_append, hval]
        simp only [List.foldl_cons, List.foldl_nil, List.length_append, List.length_singleton]
        rw [hk.2.2, pow_succ]
        have := Nat.div_add_mod n 10
        nlinarith [this]

/-- The decimal text of a natural number is a non-empty run of digits denoting it. -/
theorem natRepr_decimal (m : Nat) :
    (Nat.repr m).data ≠ [] ∧ (∀ c ∈ (Nat.repr m).data, '0' ≤ c ∧ c ≤ '9') ∧
      decimalValue (Nat.repr m).data = m := by
  obtain ⟨pre, hpre, hne, hall, hval⟩ := toDigitsCore_decimal (m + 1) m [] (Nat.lt_succ_self m)
  have hdata : (Nat.repr m).data = pre := by
    show Nat.toDigits 10 m = pre
    unfold Nat.toDigits
    rw [hpre, List.append_nil]
  rw [hdata]
  refine ⟨hne, hall, ?_⟩
  unfold decimalValue
  rw [hval 0]
  simp

/-- The decimal text of an integer in the `int` range is a numeral for it. -/
theorem isDecimalNumeral_toString (n : Int) (hlo : -(2 ^ 63 : Int) ≤ n) (hhi : n < 2 ^ 63) :
    isDecimalNumeral (toString n) n := by
  cases n with
  | ofNat m =>
    obtain ⟨hne, hall, hval⟩ := natRepr_decimal m
    refine ⟨[], (Nat.repr m).data, rfl, Or.inl rfl, hne, hall, ?_, hlo, hhi⟩
    rw [hval]
    simp
  | negSucc m =>
    obtain ⟨hne, hall, hval⟩ := natRepr_decimal (m + 1)
    refine ⟨['-'], (Nat.repr (m + 1)).data, rfl, Or.inr (Or.inr rfl), hne, hall, ?_, hlo, hhi⟩
    rw [hval]
    simp [Int.negSucc_eq]

/-- C8 (as amended): when the change-request key is missing (also from a nil
map), or its value is no decimal numeral, `GiteaPullRequestComment.Post`
returns an error and makes no list, edit or create call; and
`getPullRequestNumber` returns `n` without error exactly when the key is
present and its value is a decimal numeral for `n` (an optional `+` or `-`,
then one or more digits, leading zeros allowed, `n` within the `int` range),
which the decimal text of every such `n` is. -/
theorem GiteaPullRequestComment_change_request_number (H : Helpers)
    (g : GiteaPullRequestComment) (e : Event) :
    (mapGet e.Metadata MetaChangeRequestKey = none →
      ∃ msg, GiteaPullRequestComment.Post H g e = ⟨some msg, []⟩) ∧
    (∀ v, mapGet e.Metadata MetaChangeRequestKey = some v → (∀ n, ¬ isDecimalNumeral v n) →
      ∃ msg, GiteaPullRequestComment.Post H g e = ⟨some msg, []⟩) ∧
    (∀ n, g.getPullRequestNumber H e = .ok n ↔
      ∃ v, mapGet e.Metadata MetaChangeRequestKey = some v ∧ isDecimalNumeral v n) ∧
    (∀ n : Int, -(2 ^ 63 : Int) ≤ n → n < 2 ^ 63 →
      mapGet e.Metadata MetaChangeRequestKey = some (toString n) →
      g.getPullRequestNumber H e = .ok n) := by
  have hiff : ∀ n, g.getPullRequestNumber H e = .ok n ↔
      ∃ v, mapGet e.Metadata MetaChangeRequestKey = some v ∧ isDecimalNumeral v n := by
    intro n
    unfold GiteaPullRequestComment.getPullRequestNumber
    cases hget : mapGet e.Metadata MetaChangeRequestKey with
    | none =>
      constructor
      · intro h; cases h
      · rintro ⟨v, hv, _⟩; cases hv
    | some v =>
      dsimp only
      cases hA : Atoi H v with
      | error err =>
        dsimp only
        constructor
        · intro h; cases h
        · rintro ⟨v', hv, hnum⟩
          cases hv
          rw [(Atoi_eq_ok_iff H v n).2 hnum] at hA
          cases hA
      | ok m =>
        dsimp only
        constructor
        · intro h
          injection h with h
          subst h
          exact ⟨v, rfl, (Atoi_eq_ok_iff H v m).1 hA⟩
        · rintro ⟨v', hv, hnum⟩
          cases hv
          rw [(Atoi_eq_ok_iff H v n).2 hnum] at hA
          exact hA.symm
  refine ⟨?_, ?_, hiff, ?_⟩
  · intro hget
    exact ⟨"missing " ++ H.quote MetaChangeRequestKey ++ " metadata key", by
      simp [GiteaPullRequestComment.Post, GiteaPullRequestComment.getPullRequestNumber, hget]⟩
  · intro v hget hnot
    cases hA : Atoi H v with
    | error err =>
      exact ⟨"invalid " ++ H.quote MetaChangeRequestKey ++ " metadata value "
        ++ H.quote v ++ ": " ++ err, by
        simp [GiteaPullRequestComment.Post, GiteaPullRequestComment.getPullRequestNumber,
          hget, hA]⟩
    | ok m => exact absurd ((Atoi_eq_ok_iff H v m).1 hA) (hnot m)
  · intro n hlo hhi hget
    exact (hiff n).2 ⟨toString n, hget, isDecimalNumeral_toString n hlo hhi⟩

/-- C8 (evaluated): an event without metadata and one whose change-request
value is `12a` make `Post` fail without a call; the value `42` is read as 42. -/
theorem GiteaPullRequestComment_change_request_number_witness :
    (∃ msg, GiteaPullRequestComment.Post sampleHelpers
      (samplePullRequestComment (sampleClient none sampleComments))
      (sampleEvent "info" "ReconciliationSucceeded" none) = ⟨some msg, []⟩) ∧
    (∃ msg, GiteaPullRequestComment.Post sampleHelpers
      (samplePullRequestComment (sampleClient none sampleComments))
      (sampleEvent "info" "ReconciliationSucceeded" (some [("change_request", "12a")]))
        = ⟨some msg, []⟩) ∧
    (samplePullRequestComment (sampleClient none sampleComments)).getPullRequestNumber
      sampleHelpers
      (sampleEvent "info" "ReconciliationSucceeded" (some [("change_request", "42")]))
        = .ok 42 :=
  ⟨(GiteaPullRequestComment_change_request_number sampleHelpers _ _).1 (by rfl),
   (GiteaPullRequestComment_change_request_number sampleHelpers _ _).2.1 "12a" (by rfl)
     (fun n hn => by
       have h := (Atoi_eq_ok_iff sampleHelpers "12a" n).2 hn
       have h' : Atoi sampleHelpers "12a"
           = .error "strconv.Atoi: parsing \"12a\": invalid syntax" := by rfl
       rw [h'] at h
       cases h),
   (GiteaPullRequestComment_change_request_number sampleHelpers
      (samplePullRequestComment (sampleClient none sampleComments))
      (sampleEvent "info" "ReconciliationSucceeded" (some [("change_request", "42")]))).2.2.2
      42 (by decide) (by decide) (by rfl)⟩

/-- C8 (counterexample): the values `+7` and `007` are read as 7 without
error, and neither is the decimal text of 7. -/
theorem getPullRequestNumber_signed_or_padded_counterexample :
    (samplePullRequestComment (sampleClient none sampleComments)).getPullRequestNumber
      sampleHelpers
      (sampleEvent "info" "ReconciliationSucceeded" (some [("change_request", "+7")]))
        = .ok 7 ∧
    ("+7" : String) ≠ toString (7 : Int) ∧
    (samplePullRequestComment (sampleClient none sampleComments)).getPullRequestNumber
      sampleHelpers
      (sampleEvent "info" "ReconciliationSucceeded" (some [("change_request", "007")]))
        = .ok 7 ∧
    ("007" : String) ≠ toString (7 : Int) := by
  refine ⟨by rfl, by decide, by rfl, by decide⟩

/-! ## What the broadcast providers hand to `postMessage` -/

/-- `Slack.Post` posts `slackPayload` with `slackOptions`. -/
theorem Slack_Post_eq (H : Helpers) (N : Net) (s : Slack) (e : Event) :
    Slack.Post H N s e =
      if e.HasMetadata MetaCommitStatusKey MetaCommitStatusUpdateValue then ⟨none, []⟩
      else wrapPostMessage (postMessage N s.URL (.slack (slackPayload H s e)) (slackOptions N s)) :=
  rfl

/-- `Discord.Post` posts `discordPayload`, with the proxy option at most. -/
theorem Discord_Post_eq (H : Helpers) (N : Net) (s : Discord) (e : Event) :
    Discord.Post H N s e =
      if e.HasMetadata MetaCommitStatusKey MetaCommitStatusUpdateValue then ⟨none, []⟩
      else wrapPostMessage (postMessage N s.URL (.slack (discordPayload H s e))
        (if s.ProxyURL ≠ "" then [] ++ [withProxy s.ProxyURL] else [])) :=
  rfl

/-- `Grafana.Post` posts `grafanaPayload` with `grafanaOptions`. -/
theorem Grafana_Post_eq (H : Helpers) (N : Net) (g : Grafana) (e : Event) :
    Grafana.Post H N g e =
      if e.HasMetadata MetaCommitStatusKey MetaCommitStatusUpdateValue then ⟨none, []⟩
      else wrapPostMessage (postMessage N g.URL (.graphite (grafanaPayload H e))
        (grafanaOptions H g)) :=
  rfl

/-- `Webex.Post` posts the room and markdown with `webexOptions`. -/
theorem Webex_Post_eq (H : Helpers) (N : Net) (s : Webex) (e : Event) :
    Webex.Post H N s e =
      if e.HasMetadata MetaCommitStatusKey MetaCommitStatusUpdateValue then ⟨none, []⟩
      else wrapPostMessage (postMessage N s.URL
        (.webex { RoomId := s.RoomId, Markdown := s.CreateMarkdown H e }) (webexOptions s)) :=
  rfl

/-- Every request `postMessage` hands to the client is the new request, with
the encoded payload as body, after the request modifier of the options. -/
theorem postMessage_sent (N : Net) (address : String) (payload : Payload)
    (opts : List postOption) (r : Request) (hr : r ∈ (postMessage N address payload opts).sent) :
    ∃ data, N.jsonMarshal payload = .ok data ∧
      r = modifiedRequest (appliedPostOptions opts).requestModifier
        (newPostRequest address data) := by
  unfold postMessage at hr
  simp only [] at hr
  split at hr
  · simp at hr
  · split at hr
    · simp at hr
    · rename_i data hdata
      refine ⟨data, hdata, ?_⟩
      split at hr
      · simp at hr
      · split at hr
        · simpa [modifiedRequest, newPostRequest, appliedPostOptions, defaultPostOptions]
            using hr
        · split at hr
          · simpa [modifiedRequest, newPostRequest, appliedPostOptions, defaultPostOptions]
              using hr
          · split at hr <;>
            simpa [modifiedRequest, newPostRequest, appliedPostOptions, defaultPostOptions]
              using hr

/-- The error wrapping keeps the requests. -/
theorem wrapPostMessage_sent (r : Delivery) : (wrapPostMessage r).sent = r.sent := by
  unfold wrapPostMessage
  cases r.err <;> rfl

/-- The options of `Grafana.Post` leave its request modifier in place. -/
theorem grafanaOptions_requestModifier (H : Helpers) (g : Grafana) :
    (appliedPostOptions (grafanaOptions H g)).requestModifier
      = some (grafanaRequestModifier H g) := by
  unfold grafanaOptions appliedPostOptions
  by_cases hp : g.ProxyURL = "" <;> cases ht : g.TLSConfig <;>
    simp [hp, withRequestModifier, withProxy, withTLSConfig]

/-- The options of `Slack.Post` leave its request modifier in place. -/
theorem slackOptions_requestModifier (N : Net) (s : Slack) :
    (appliedPostOptions (slackOptions N s)).requestModifier
      = some (slackRequestModifier s) := by
  unfold slackOptions appliedPostOptions
  by_cases hp : s.ProxyURL = "" <;> cases ht : s.TLSConfig <;>
    by_cases hu : s.URL = "https://slack.com/api/chat.postMessage" <;>
    simp [hp, hu, withRequestModifier, withProxy, withTLSConfig, withResponseValidator]

/-- The `Authorization` values of a new request followed by added header lines
are those of the added lines. -/
theorem headerValues_newPostRequest (address data : String)
    (added : List (String × String)) :
    headerValues ((newPostRequest address data).Header ++ added) "Authorization"
      = headerValues added "Authorization" := by
  simp [headerValues, newPostRequest, headerSet, List.filter_append]

/-- What the request modifier of `Grafana.Post` does to a request. -/
theorem grafanaRequestModifier_eq (H : Helpers) (g : Grafana) (req : Request) :
    grafanaRequestModifier H g req =
      { req with
        Header := req.Header ++
          (if g.Token ≠ "" then [("Authorization", "Bearer " ++ g.Token)]
           else if g.Username ≠ "" ∧ g.Password ≠ "" then
             [("Authorization", "Basic " ++ H.basicAuth g.Username g.Password)]
           else []) } := by
  unfold grafanaRequestModifier headerAdd
  by_cases ht : g.Token = ""
  · by_cases hup : g.Username ≠ "" ∧ g.Password ≠ ""
    · simp [ht, hup]
    · simp [ht, hup]
  · simp [ht]

/-- C12: the request modifier of `Grafana.Post` adds at most one
`Authorization` header: `Bearer` and the token when the token is non-empty,
also when username and password are set; `Basic` and `basicAuth` of username
and password when the token is empty and both are non-empty; none otherwise.
The request `Grafana.Post` sends holds that header and no other
`Authorization` value. -/
theorem grafana_authorization_header (H : Helpers) (g : Grafana) (req : Request) :
    (g.Token ≠ "" →
      grafanaRequestModifier H g req =
        { req with Header := req.Header ++ [("Authorization", "Bearer " ++ g.Token)] }) ∧
    (g.Token = "" → g.Username ≠ "" → g.Password ≠ "" →
      grafanaRequestModifier H g req =
        { req with
          Header := req.Header ++
            [("Authorization", "Basic " ++ H.basicAuth g.Username g.Password)] }) ∧
    (g.Token = "" → (g.Username = "" ∨ g.Password = "") →
      grafanaRequestModifier H g req = req) ∧
    (∀ (N : Net) (e : Event) (r : Request), r ∈ (Grafana.Post H N g e).sent →
      headerValues r.Header "Authorization" =
        (if g.Token ≠ "" then ["Bearer " ++ g.Token]
         else if g.Username ≠ "" ∧ g.Password ≠ "" then
           ["Basic " ++ H.basicAuth g.Username g.Password]
         else [])) := by
  refine ⟨?_, ?_, ?_, ?_⟩
  · intro ht
    rw [grafanaRequestModifier_eq, if_pos ht]
  · intro ht hu hp
    rw [grafanaRequestModifier_eq, if_neg (not_not.2 ht), if_pos ⟨hu, hp⟩]
  · intro ht hup
    have hno : ¬ (g.Username ≠ "" ∧ g.Password ≠ "") := by
      rintro ⟨hu, hp⟩
      rcases hup with h | h
      · exact hu h
      · exact hp h
    rw [grafanaRequestModifier_eq, if_neg (not_not.2 ht), if_neg hno, List.append_nil]
  · intro N e r hr
    rw [Grafana_Post_eq] at hr
    split_ifs at hr with hskip
    · simp at hr
    · rw [wrapPostMessage_sent] at hr
      obtain ⟨data, _, hreq⟩ := postMessage_sent N g.URL _ _ r hr
      rw [grafanaOptions_requestModifier] at hreq
      rw [hreq]
      simp only [modifiedRequest]
      rw [grafanaRequestModifier_eq, headerValues_newPostRequest]
      by_cases ht : g.Token = ""
      · by_cases hup : g.Username ≠ "" ∧ g.Password ≠ ""
        · simp [ht, hup, headerValues]
        · simp [ht, hup, headerValues]
      · simp [ht, headerValues]

/-- C12 (evaluated): a token next to a username and password gives the bearer
header, a username and password alone the basic header, a username alone
nothing. -/
theorem grafana_authorization_header_witness :
    grafanaRequestModifier sampleHelpers
        { sampleGrafana with Token := "token", Username := "user", Password := "pass" }
        (newPostRequest "https://grafana.example.com/api/annotations" "{}") =
      { newPostRequest "https://grafana.example.com/api/annotations" "{}" with
        Header := (newPostRequest "https://grafana.example.com/api/annotations" "{}").Header
          ++ [("Authorization", "Bearer " ++ "token")] } ∧
    grafanaRequestModifier sampleHelpers
        { sampleGrafana with Token := "", Username := "user", Password := "pass" }
        (newPostRequest "https://grafana.example.com/api/annotations" "{}") =
      { newPostRequest "https://grafana.example.com/api/annotations" "{}" with
        Header := (newPostRequest "https://grafana.example.com/api/annotations" "{}").Header
          ++ [("Authorization", "Basic " ++ sampleHelpers.basicAuth "user" "pass")] } ∧
    grafanaRequestModifier sampleHelpers
        { sampleGrafana with Token := "", Username := "user", Password := "" }
        (newPostRequest "https://grafana.example.com/api/annotations" "{}") =
      newPostRequest "https://grafana.example.com/api/annotations" "{}" :=
  ⟨(grafana_authorization_header sampleHelpers _ _).1 (by decide),
   (grafana_authorization_header sampleHelpers
      { sampleGrafana with Token := "", Username := "user", Password := "pass" } _).2.1
      (by decide) (by decide) (by decide),
   (grafana_authorization_header sampleHelpers
      { sampleGrafana with Token := "", Username := "user", Password := "" } _).2.2.1
      (by decide) (Or.inr (by decide))⟩

/-- C13 (as amended): when no credential is configured, the requests sent by
`Slack.Post` (empty token) and by `Grafana.Post` (empty token and no complete
username and password pair) carry no `Authorization` header at all. -/
theorem no_credential_no_authorization_header (H : Helpers) (N : Net) (e : Event) :
    (∀ (s : Slack) (r : Request), s.Token = "" → r ∈ (Slack.Post H N s e).sent →
      headerValues r.Header "Authorization" = []) ∧
    (∀ (g : Grafana) (r : Request), g.Token = "" → (g.Username = "" ∨ g.Password = "") →
      r ∈ (Grafana.Post H N g e).sent → headerValues r.Header "Authorization" = []) := by
  constructor
  · intro s r ht hr
    rw [Slack_Post_eq] at hr
    split_ifs at hr with hskip
    · simp at hr
    · rw [wrapPostMessage_sent] at hr
      obtain ⟨data, _, hreq⟩ := postMessage_sent N s.URL _ _ r hr
      rw [slackOptions_requestModifier] at hreq
      rw [hreq]
      simp [modifiedRequest, slackRequestModifier, ht, headerValues, newPostRequest, headerSet]
  · intro g r ht hup hr
    rw [Grafana_Post_eq] at hr
    split_ifs at hr with hskip
    · simp at hr
    · rw [wrapPostMessage_sent] at hr
      obtain ⟨data, _, hreq⟩ := postMessage_sent N g.URL _ _ r hr
      rw [grafanaOptions_requestModifier] at hreq
      have hno : ¬ (g.Username ≠ "" ∧ g.Password ≠ "") := by
        rintro ⟨hu, hp⟩
        rcases hup with h | h
        · exact hu h
        · exact hp h
      rw [hreq]
      simp only [modifiedRequest]
      rw [grafanaRequestModifier_eq, headerValues_newPostRequest, if_neg (not_not.2 ht),
        if_neg hno]
      rfl

/-- C13 (evaluated): Slack without token and Grafana with a username but no
password and no token send one request each, without `Authorization`. -/
theorem no_credential_no_authorization_header_witness :
    headerValues
      (⟨"POST", "https://hooks.slack.com/services/x", "{}",
        [("Content-Type", "application/json")]⟩ : Request).Header "Authorization" = [] ∧
    headerValues
      (⟨"POST", "https://grafana.example.com/api/annotations", "{}",
        [("Content-Type", "application/json")]⟩ : Request).Header "Authorization" = [] :=
  ⟨(no_credential_no_authorization_header sampleHelpers sampleNet
      (sampleEvent "info" "ReconciliationSucceeded" sampleRevisionMetadata)).1
      { sampleSlack with Token := "" } _ rfl (by decide),
   (no_credential_no_authorization_header sampleHelpers sampleNet
      (sampleEvent "info" "ReconciliationSucceeded" sampleRevisionMetadata)).2
      { sampleGrafana with Token := "", Username := "user" } _ rfl (Or.inr rfl) (by decide)⟩

/-- C13 (counterexample): Webex with an empty token and no other credential
still sends an `Authorization` header, `Bearer` followed by nothing. -/
theorem Webex_Post_empty_token_counterexample :
    ({ sampleWebex with Token := "" } : Webex).Token = "" ∧
    (Webex.Post sampleHelpers sampleNet { sampleWebex with Token := "" }
        (sampleEvent "info" "ReconciliationSucceeded" sampleRevisionMetadata)).sent.map
        (fun r => headerValues r.Header "Authorization")
      = [["Bearer "]] := by
  refine ⟨rfl, by decide⟩

/-! ## Payloads of the broadcast providers -/

/-- Appending one image per element is mapping. -/
theorem foldl_append_singleton {α β : Type} (f : α → β) (l : List α) (init : List β) :
    l.foldl (fun acc x => acc ++ [f x]) init = init ++ l.map f := by
  induction l generalizing init with
  | nil => simp
  | cons a rest ih => simp [List.foldl_cons, ih, List.append_assoc]

/-- The tag list, segment by segment. -/
theorem grafanaTags_eq (e : Event) :
    grafanaTags e =
      ["flux", e.ReportingController] ++
      (mapEntries e.Metadata).map
        (fun kv => replaceColons kv.1 ++ ": " ++ replaceColons kv.2) ++
      ["kind: " ++ e.InvolvedObject.Kind, "name: " ++ e.InvolvedObject.Name,
       "namespace: " ++ e.InvolvedObject.Namespace] := by
  unfold grafanaTags
  simp only [List.nil_append]
  rw [foldl_append_singleton (fun kv : String × String =>
    replaceColons kv.1 ++ ": " ++ replaceColons kv.2)]
  simp [List.append_assoc]

/-- No colon is left after the replacement. -/
theorem replaceColons_count (s : String) : (replaceColons s).data.count ':' = 0 := by
  unfold replaceColons
  simp only []
  rw [List.count_eq_zero]
  intro h
  obtain ⟨c, _, hc⟩ := List.mem_map.1 h
  by_cases hcc : c = ':'
  · rw [if_pos hcc] at hc
    exact absurd hc (by decide)
  · rw [if_neg hcc] at hc
    exact hcc hc

/-- C14: for an event not suppressed as a commit-status update, the tags of
the payload `Grafana.Post` sends are `flux` and the reporting controller, then
one tag per metadata pair, the key and the value with every colon replaced by
a bar and `: ` between them, in the order the pairs are visited, then the
kind, name and namespace tags; the list has as many entries as the metadata
plus five, and every metadata tag holds exactly one colon. -/
theorem grafana_payload_tags (H : Helpers) (N : Net) (g : Grafana) (e : Event)
    (hsend : e.HasMetadata MetaCommitStatusKey MetaCommitStatusUpdateValue = false) :
    Grafana.Post H N g e =
      wrapPostMessage (postMessage N g.URL (.graphite (grafanaPayload H e))
        (grafanaOptions H g)) ∧
    (grafanaPayload H e).Tags =
      ["flux", e.ReportingController] ++
      (mapEntries e.Metadata).map
        (fun kv => replaceColons kv.1 ++ ": " ++ replaceColons kv.2) ++
      ["kind: " ++ e.InvolvedObject.Kind, "name: " ++ e.InvolvedObject.Name,
       "namespace: " ++ e.InvolvedObject.Namespace] ∧
    (∀ visited : List (String × String), visited.Perm (mapEntries e.Metadata) →
      ((mapEntries e.Metadata).map
        (fun kv => replaceColons kv.1 ++ ": " ++ replaceColons kv.2)).Perm
        (visited.map (fun kv => replaceColons kv.1 ++ ": " ++ replaceColons kv.2))) ∧
    (grafanaPayload H e).Tags.length = (mapEntries e.Metadata).length + 5 ∧
    (∀ kv ∈ mapEntries e.Metadata,
      (replaceColons kv.1 ++ ": " ++ replaceColons kv.2).data.count ':' = 1) := by
  refine ⟨?_, grafanaTags_eq e, ?_, ?_, ?_⟩
  · rw [Grafana_Post_eq, hsend]
    rfl
  · intro visited hperm
    exact (hperm.map _).symm
  · show (grafanaTags e).length = _
    rw [grafanaTags_eq]
    simp
  · intro kv _
    simp only [String.data_append, List.count_append, replaceColons_count]
    decide

/-- C14 (evaluated): an event with two metadata pairs, one of them with
colons in key and value. -/
theorem grafana_payload_tags_witness :
    (grafanaPayload sampleHelpers
      (sampleEvent "info" "ReconciliationSucceeded"
        (some [("revision", "main@sha1:abc123"), ("a:b", "c")]))).Tags =
      ["flux", "kustomize-controller"] ++
      ([("revision", "main@sha1:abc123"), ("a:b", "c")] : List (String × String)).map
        (fun kv => replaceColons kv.1 ++ ": " ++ replaceColons kv.2) ++
      ["kind: " ++ "Kustomization", "name: " ++ "app", "namespace: " ++ "flux-system"] ∧
    (grafanaPayload sampleHelpers
      (sampleEvent "info" "ReconciliationSucceeded"
        (some [("revision", "main@sha1:abc123"), ("a:b", "c")]))).Tags.length = 2 + 5 ∧
    replaceColons "main@sha1:abc123" = "main@sha1|abc123" :=
  ⟨(grafana_payload_tags sampleHelpers sampleNet sampleGrafana
      (sampleEvent "info" "ReconciliationSucceeded"
        (some [("revision", "main@sha1:abc123"), ("a:b", "c")])) (by decide)).2.1,
   (grafana_payload_tags sampleHelpers sampleNet sampleGrafana
      (sampleEvent "info" "ReconciliationSucceeded"
        (some [("revision", "main@sha1:abc123"), ("a:b", "c")])) (by decide)).2.2.2.1,
   by decide⟩

/-- The fields built from the metadata: one per pair, in the order visited. -/
theorem slackFields_eq (e : Event) :
    slackFields e = (mapEntries e.Metadata).map (fun kv => SlackField.mk kv.1 kv.2 false) := by
  unfold slackFields
  rw [foldl_append_singleton (fun kv : String × String => SlackField.mk kv.1 kv.2 false)]
  simp

/-- C16: for an event not suppressed as a commit-status update, the payload
`Slack.Post` and `Discord.Post` send holds a single attachment whose fields
are, for each metadata pair, the field with the key as title, the value as
value and `Short` false, in the order the pairs are visited: a permutation of
the fields of any enumeration of the pairs, as many as the metadata has
entries, and none for an absent metadata map. -/
theorem slack_discord_attachment_fields (H : Helpers) (N : Net) (e : Event)
    (hsend : e.HasMetadata MetaCommitStatusKey MetaCommitStatusUpdateValue = false) :
    (∀ s : Slack,
      Slack.Post H N s e =
        wrapPostMessage (postMessage N s.URL (.slack (slackPayload H s e)) (slackOptions N s)) ∧
      ∃ a, (slackPayload H s e).Attachments = [a] ∧ a.Fields = slackFields e) ∧
    (∀ s : Discord,
      Discord.Post H N s e =
        wrapPostMessage (postMessage N s.URL (.slack (discordPayload H s e))
          (if s.ProxyURL ≠ "" then [] ++ [withProxy s.ProxyURL] else [])) ∧
      ∃ a, (discordPayload H s e).Attachments = [a] ∧ a.Fields = slackFields e) ∧
    slackFields e = (mapEntries e.Metadata).map (fun kv => SlackField.mk kv.1 kv.2 false) ∧
    (∀ visited : List (String × String), visited.Perm (mapEntries e.Metadata) →
      (slackFields e).Perm (visited.map (fun kv => SlackField.mk kv.1 kv.2 false))) ∧
    (slackFields e).length = (mapEntries e.Metadata).length ∧
    (e.Metadata = none → slackFields e = []) := by
  refine ⟨?_, ?_, slackFields_eq e, ?_, ?_, ?_⟩
  · intro s
    refine ⟨?_, _, rfl, rfl⟩
    rw [Slack_Post_eq, hsend]
    rfl
  · intro s
    refine ⟨?_, _, rfl, rfl⟩
    rw [Discord_Post_eq, hsend]
    rfl
  · intro visited hperm
    rw [slackFields_eq]
    exact (hperm.map _).symm
  · rw [slackFields_eq, List.length_map]
  · intro hnone
    rw [slackFields_eq, hnone]
    rfl

/-- C16 (evaluated): two metadata pairs give two fields; no metadata, none. -/
theorem slack_discord_attachment_fields_witness :
    slackFields (sampleEvent "info" "ReconciliationSucceeded"
        (some [("revision", "main@sha1:abc123"), ("summary", "ok")]))
      = [⟨"revision", "main@sha1:abc123", false⟩, ⟨"summary", "ok", false⟩] ∧
    slackFields (sampleEvent "info" "ReconciliationSucceeded" none) = [] :=
  ⟨(slack_discord_attachment_fields sampleHelpers sampleNet
      (sampleEvent "info" "ReconciliationSucceeded"
        (some [("revision", "main@sha1:abc123"), ("summary", "ok")])) (by decide)).2.2.1,
   (slack_discord_attachment_fields sampleHelpers sampleNet
      (sampleEvent "info" "ReconciliationSucceeded" none) (by decide)).2.2.2.2.2 rfl⟩

/-- C20 (evaluated at a failing input): for an event that occurred at
2023-11-14T22:13:20Z the payload of `Grafana.Post` holds `when` 1700000000,
the time in seconds, where the time in milliseconds is 1700000000000; in
general `when` is `Timestamp.Unix()`. -/
theorem grafana_payload_when_seconds :
    (grafanaPayload sampleHelpers
      { sampleEvent "info" "ReconciliationSucceeded" sampleRevisionMetadata with
        Timestamp := ⟨1700000000000000000⟩ }).When = 1700000000 ∧
    Time.UnixMilli ⟨1700000000000000000⟩ = 1700000000000 ∧
    (∀ (H : Helpers) (e : Event), (grafanaPayload H e).When = e.Timestamp.Unix) := by
  refine ⟨by decide, by decide, fun _ _ => rfl⟩

/-! ## Slack response validation (`validateSlackResponse`) -/

/-- C15: the result of `validateSlackResponse` does not depend on the status
code; it is no error exactly when the body decodes with `ok` true; when the
body decodes with `ok` false (also for an absent field, which decodes as
false) it is an error whose message contains the decoded error string; when
the body does not decode it is an error. -/
theorem validateSlackResponse_by_body (N : Net) (body : String) :
    (∀ code code' : Int,
      validateSlackResponse N code body = validateSlackResponse N code' body) ∧
    (∀ code : Int, validateSlackResponse N code body = none ↔
      ∃ resp, N.unmarshalSlackResponse body = .ok resp ∧ resp.Ok = true) ∧
    (∀ (code : Int) (resp : slackResponse), N.unmarshalSlackResponse body = .ok resp →
      resp.Ok = false →
      ∃ msg, validateSlackResponse N code body = some msg ∧
        stringsContains msg resp.Error = true) ∧
    (∀ (code : Int) (err : String), N.unmarshalSlackResponse body = .error err →
      ∃ msg, validateSlackResponse N code body = some msg) := by
  refine ⟨fun _ _ => rfl, ?_, ?_, ?_⟩
  · intro code
    unfold validateSlackResponse
    cases hu : N.unmarshalSlackResponse body with
    | error err => simp
    | ok resp =>
      cases hok : resp.Ok <;> simp [hok]
  · intro code resp hu hok
    refine ⟨"Slack responded with error: " ++ resp.Error, ?_, stringsContains_end _ _⟩
    simp [validateSlackResponse, hu, hok]
  · intro code err hu
    exact ⟨"unable to unmarshal response body: " ++ err, by simp [validateSlackResponse, hu]⟩

/-! ## Construction of the Gitea providers -/

/-- A split always has a piece. -/
theorem splitSlash_ne_nil (cs : List Char) : splitSlash cs ≠ [] := by
  cases cs with
  | nil => simp [splitSlash]
  | cons c cs =>
    unfold splitSlash
    split_ifs
    · simp
    · split <;> simp

/-- A text with a single piece is that piece. -/
theorem splitSlash_single (cs b : List Char) (h : splitSlash cs = [b]) : cs = b := by
  induction cs generalizing b with
  | nil => simpa [splitSlash] using h
  | cons c cs ih =>
    unfold splitSlash at h
    split_ifs at h with hc
    · have : splitSlash cs = [] := (List.cons.inj h).2
      exact absurd this (splitSlash_ne_nil cs)
    · split at h
      · rename_i hnil
        exact absurd hnil (splitSlash_ne_nil cs)
      · rename_i piece pieces hsplit
        obtain ⟨h1, h2⟩ := List.cons.inj h
        subst h2
        rw [← h1, ih piece hsplit]

/-- A text with two pieces is the first, a slash and the second. -/
theorem splitSlash_pair (cs a b : List Char) (h : splitSlash cs = [a, b]) :
    cs = a ++ '/' :: b := by
  induction cs generalizing a with
  | nil => simp [splitSlash] at h
  | cons c cs ih =>
    unfold splitSlash at h
    split_ifs at h with hc
    · obtain ⟨h1, h2⟩ := List.cons.inj h
      rw [← h1, hc, splitSlash_single cs b h2]
      rfl
    · split at h
      · rename_i hnil
        exact absurd hnil (splitSlash_ne_nil cs)
      · rename_i piece pieces hsplit
        obtain ⟨h1, h2⟩ := List.cons.inj h
        subst h2
        rw [← h1, ih piece hsplit]
        rfl

/-- A client built from a parsed address has an id of two pieces, the owner
and the repository. -/
theorem NewGiteaClient_ok_owner_repo (H : Helpers) (N : Net) (S : GiteaSetup)
    (opts : List GiteaClientOption) (host id parsedHost : String) (c : GiteaClient)
    (htoken : (appliedGiteaOptions opts).token ≠ "")
    (haddr : S.parseGitAddress (appliedGiteaOptions opts).address = .ok (host, id))
    (hhost : N.urlParse host = .ok parsedHost)
    (h : (NewGiteaClient H N S opts).1 = .ok c) :
    (stringsSplitSlash id).length = 2 ∧
      c.Owner = (stringsSplitSlash id).getD 0 "" ∧ c.Repo = (stringsSplitSlash id).getD 1 "" := by
  by_cases hlen : (stringsSplitSlash id).length = 2
  · refine ⟨hlen, ?_⟩
    simp only [NewGiteaClient, htoken, haddr, hhost, hlen, ne_eq, not_true_eq_false,
      if_false] at h
    split at h
    · simp at h
    · split at h
      · simp at h
      · split at h
        · split at h
          · simp at h
          · simp only [Except.ok.injEq] at h
            subst h
            exact ⟨rfl, rfl⟩
        · simp only [Except.ok.injEq] at h
          subst h
          exact ⟨rfl, rfl⟩
  · simp [NewGiteaClient, htoken, haddr, hhost, hlen] at h

/-- A list of two strings is its first and its second element. -/
theorem list_pair_of_length_two (l : List String) (h : l.length = 2) :
    l = [l.getD 0 "", l.getD 1 ""] := by
  rcases l with _ | ⟨x, _ | ⟨y, _ | ⟨z, t⟩⟩⟩ <;> simp at h ⊢

/-- A string contains its own start. -/
theorem stringsContains_start (a b : String) : stringsContains (a ++ b) a = true := by
  unfold stringsContains
  simp only [String.data_append, decide_eq_true_eq]
  exact ⟨[], b.data, by simp⟩

/-- C17: with a non-empty token and an address that parses to a host and a
repository id, `NewGiteaClient` succeeds only if the id splits on `/` into
exactly two components, and then the owner is the first and the repository
the second; for any other number of components it returns an error containing
`invalid repository id`, having created no client and looked up no identity;
and when the id has two components, the proxy string is empty or parses, the
SDK client is created and, where asked for, the identity lookup answers,
`NewGiteaClient` does succeed, with the first component as owner and the
second as repository. -/
theorem NewGiteaClient_repository_id (H : Helpers) (N : Net) (S : GiteaSetup)
    (opts : List GiteaClientOption) (host id parsedHost : String)
    (htoken : (appliedGiteaOptions opts).token ≠ "")
    (haddr : S.parseGitAddress (appliedGiteaOptions opts).address = .ok (host, id))
    (hhost : N.urlParse host = .ok parsedHost) :
    (∀ c, (NewGiteaClient H N S opts).1 = .ok c →
      stringsSplitSlash id = [c.Owner, c.Repo] ∧
      id.data = c.Owner.data ++ '/' :: c.Repo.data) ∧
    ((stringsSplitSlash id).length ≠ 2 →
      NewGiteaClient H N S opts =
        (.error ("invalid repository id " ++ H.quote id),
          [SetupStep.parseGitAddress (appliedGiteaOptions opts).address]) ∧
      stringsContains ("invalid repository id " ++ H.quote id) "invalid repository id"
        = true) ∧
    (∀ (owner repo : String) (tr : giteaTransport) (client : Client),
      stringsSplitSlash id = [owner, repo] →
      (((appliedGiteaOptions opts).proxyURL = "" ∧
          tr = ⟨(appliedGiteaOptions opts).tlsConfig, none⟩) ∨
        ((appliedGiteaOptions opts).proxyURL ≠ "" ∧
          ∃ u, N.urlParse (appliedGiteaOptions opts).proxyURL = .ok u ∧
            tr = ⟨(appliedGiteaOptions opts).tlsConfig, some u⟩)) →
      S.NewClient host (appliedGiteaOptions opts).token tr = .ok client →
      ((appliedGiteaOptions opts).fetchUserLogin = false →
        NewGiteaClient H N S opts =
          (.ok { Owner := owner, Repo := repo, Username := "", Client := client },
            [SetupStep.parseGitAddress (appliedGiteaOptions opts).address,
             SetupStep.NewClient host (appliedGiteaOptions opts).token tr])) ∧
      ((appliedGiteaOptions opts).fetchUserLogin = true →
        ∀ user, S.GetMyUserInfo client = .ok user →
        NewGiteaClient H N S opts =
          (.ok { Owner := owner, Repo := repo, Username := user.UserName, Client := client },
            [SetupStep.parseGitAddress (appliedGiteaOptions opts).address,
             SetupStep.NewClient host (appliedGiteaOptions opts).token tr,
             SetupStep.GetMyUserInfo]))) := by
  refine ⟨?_, ?_, ?_⟩
  · intro c hc
    obtain ⟨hlen, howner, hrepo⟩ :=
      NewGiteaClient_ok_owner_repo H N S opts host id parsedHost c htoken haddr hhost hc
    have hsplit : stringsSplitSlash id = [c.Owner, c.Repo] := by
      rw [howner, hrepo]
      exact list_pair_of_length_two _ hlen
    refine ⟨hsplit, ?_⟩
    unfold stringsSplitSlash at hsplit
    rcases hl : splitSlash id.data with _ | ⟨a, _ | ⟨b, _ | ⟨z, t⟩⟩⟩
    · rw [hl] at hsplit; simp at hsplit
    · rw [hl] at hsplit; simp at hsplit
    · rw [hl] at hsplit
      simp only [List.map_cons, List.map_nil, List.cons.injEq, and_true] at hsplit
      rw [← hsplit.1, ← hsplit.2]
      exact splitSlash_pair id.data a b hl
    · rw [hl] at hsplit; simp at hsplit
  · intro hlen
    refine ⟨?_, stringsContains_start _ _⟩
    simp [NewGiteaClient, htoken, haddr, hhost, hlen]
  · intro owner repo tr client hsplit htr hnew
    rcases htr with ⟨hp, htr⟩ | ⟨hp, u, hu, htr⟩
    · subst htr
      constructor
      · intro hf
        simp [NewGiteaClient, htoken, haddr, hhost, hsplit, hp, hnew, hf]
      · intro hf user huser
        simp [NewGiteaClient, htoken, haddr, hhost, hsplit, hp, hnew, hf, huser]
    · subst htr
      constructor
      · intro hf
        simp [NewGiteaClient, htoken, haddr, hhost, hsplit, hp, hu, hnew, hf]
      · intro hf user huser
        simp [NewGiteaClient, htoken, haddr, hhost, hsplit, hp, hu, hnew, hf, huser]

/-- C17 (evaluated): the address ending in `/foo/bar` gives a client with
owner `foo` and repository `bar`, also through `NewGiteaPullRequestComment`,
which looks up the user `test-user`; the address ending in `/foo/bar/baz` is
refused after the address was parsed and before a client is created. -/
theorem NewGiteaClient_repository_id_witness :
    (∃ c, (NewGiteaClient sampleHelpers sampleNet sampleSetup
        [WithGiteaAddress "https://gitea.example.com/foo/bar", WithGiteaToken "foobar"]).1
          = .ok c ∧ c.Owner = "foo" ∧ c.Repo = "bar") ∧
    (NewGiteaClient sampleHelpers sampleNet sampleSetup
        [WithGiteaAddress "https://gitea.example.com/foo/bar", WithGiteaToken "foobar"]).2
      = [SetupStep.parseGitAddress "https://gitea.example.com/foo/bar",
         SetupStep.NewClient "https://gitea.example.com" "foobar" ⟨none, none⟩] ∧
    (∃ c, (NewGiteaPullRequestComment sampleHelpers sampleNet sampleSetup
        "0c9c2e41-d2f9-4f9b-9c41-bebc1984d67a"
        [WithGiteaAddress "https://gitea.example.com/foo/bar", WithGiteaToken "foobar"]).1
          = .ok c ∧ c.Owner = "foo" ∧ c.Repo = "bar" ∧ c.Username = "test-user" ∧
        c.ProviderUID = "0c9c2e41-d2f9-4f9b-9c41-bebc1984d67a") ∧
    (∀ c, (NewGiteaClient sampleHelpers sampleNet sampleSetup
        [WithGiteaAddress "https://gitea.example.com/foo/bar", WithGiteaToken "foobar"]).1
          = .ok c →
      stringsSplitSlash "foo/bar" = [c.Owner, c.Repo] ∧
      ("foo/bar" : String).data = c.Owner.data ++ '/' :: c.Repo.data) ∧
    (NewGiteaClient sampleHelpers sampleNet sampleSetup
        [WithGiteaAddress "https://gitea.example.com/foo/bar/baz", WithGiteaToken "foobar"] =
        (.error ("invalid repository id " ++ sampleHelpers.quote "foo/bar/baz"),
          [SetupStep.parseGitAddress "https://gitea.example.com/foo/bar/baz"]) ∧
      stringsContains ("invalid repository id " ++ sampleHelpers.quote "foo/bar/baz")
        "invalid repository id" = true) :=
  have hok := ((NewGiteaClient_repository_id sampleHelpers sampleNet sampleSetup
      [WithGiteaAddress "https://gitea.example.com/foo/bar", WithGiteaToken "foobar"]
      "https://gitea.example.com" "foo/bar" "https://gitea.example.com"
      (by decide) (by rfl) (by rfl)).2.2 "foo" "bar" ⟨none, none⟩ (sampleClient none [])
      (by decide) (Or.inl ⟨rfl, rfl⟩) (by rfl)).1 rfl
  ⟨⟨_, congrArg Prod.fst hok, rfl, rfl⟩,
   congrArg Prod.snd hok,
   ⟨_, rfl, rfl, rfl, rfl, rfl⟩,
   (NewGiteaClient_repository_id sampleHelpers sampleNet sampleSetup
      [WithGiteaAddress "https://gitea.example.com/foo/bar", WithGiteaToken "foobar"]
      "https://gitea.example.com" "foo/bar" "https://gitea.example.com"
      (by decide) (by rfl) (by rfl)).1,
   (NewGiteaClient_repository_id sampleHelpers sampleNet sampleSetup
      [WithGiteaAddress "https://gitea.example.com/foo/bar/baz", WithGiteaToken "foobar"]
      "https://gitea.example.com" "foo/bar/baz" "https://gitea.example.com"
      (by decide) (by rfl) (by rfl)).2.1 (by decide)⟩

/-- The option added by `NewGiteaPullRequestComment` leaves the token as it is. -/
theorem appliedGiteaOptions_fetchUserLogin_token (opts : List GiteaClientOption) :
    (appliedGiteaOptions (opts ++ [WithGiteaFetchUserLogin])).token
      = (appliedGiteaOptions opts).token := by
  unfold appliedGiteaOptions
  rw [List.foldl_append]
  rfl

/-- Without a token `NewGiteaClient` stops before any step. -/
theorem NewGiteaClient_of_empty_token (H : Helpers) (N : Net) (S : GiteaSetup)
    (opts : List GiteaClientOption) (htoken : (appliedGiteaOptions opts).token = "") :
    NewGiteaClient H N S opts = (.error "gitea token cannot be empty", []) := by
  simp [NewGiteaClient, htoken]

/-- C18: for every option list, `NewGiteaPullRequestComment` with an empty
provider UID returns an error having taken no step of `NewGiteaClient`; and
when the configured token is empty `NewGiteaClient`, and so `NewGitea` and
`NewGiteaPullRequestComment`, return an error whatever the address, before the
address is parsed and before any network call. -/
theorem construction_fails_on_empty_value (H : Helpers) (N : Net) (S : GiteaSetup)
    (opts : List GiteaClientOption) :
    NewGiteaPullRequestComment H N S "" opts = (.error "provider UID cannot be empty", []) ∧
    ((appliedGiteaOptions opts).token = "" →
      NewGiteaClient H N S opts = (.error "gitea token cannot be empty", []) ∧
      (∀ commitStatus, ∃ err, NewGitea H N S commitStatus opts = (.error err, [])) ∧
      (∀ providerUID, ∃ err,
        NewGiteaPullRequestComment H N S providerUID opts = (.error err, []))) := by
  refine ⟨by simp [NewGiteaPullRequestComment], ?_⟩
  intro htoken
  refine ⟨NewGiteaClient_of_empty_token H N S opts htoken, ?_, ?_⟩
  · intro commitStatus
    by_cases hcs : commitStatus = ""
    · exact ⟨"commit status cannot be empty", by simp [NewGitea, hcs]⟩
    · exact ⟨"gitea token cannot be empty", by
        simp [NewGitea, hcs, NewGiteaClient_of_empty_token H N S opts htoken]⟩
  · intro providerUID
    by_cases hp : providerUID = ""
    · exact ⟨"provider UID cannot be empty", by simp [NewGiteaPullRequestComment, hp]⟩
    · have htoken' : (appliedGiteaOptions (opts ++ [WithGiteaFetchUserLogin])).token = "" := by
        rw [appliedGiteaOptions_fetchUserLogin_token, htoken]
      exact ⟨"gitea token cannot be empty", by
        simp [NewGiteaPullRequestComment, hp,
          NewGiteaClient_of_empty_token H N S _ htoken']⟩

/-- C18 (evaluated): the options of the package's tests, without token. -/
theorem construction_fails_on_empty_value_witness :
    NewGiteaPullRequestComment sampleHelpers sampleNet sampleSetup ""
        [WithGiteaAddress "https://gitea.example.com/foo/bar", WithGiteaToken "foobar"]
      = (.error "provider UID cannot be empty", []) ∧
    NewGiteaClient sampleHelpers sampleNet sampleSetup
        [WithGiteaAddress "https://gitea.example.com/foo/bar"]
      = (.error "gitea token cannot be empty", []) ∧
    (∃ err, NewGiteaPullRequestComment sampleHelpers sampleNet sampleSetup
        "0c9c2e41-d2f9-4f9b-9c41-bebc1984d67a"
        [WithGiteaAddress "https://gitea.example.com/foo/bar"] = (.error err, [])) :=
  ⟨(construction_fails_on_empty_value sampleHelpers sampleNet sampleSetup _).1,
   ((construction_fails_on_empty_value sampleHelpers sampleNet sampleSetup
      [WithGiteaAddress "https://gitea.example.com/foo/bar"]).2 (by decide)).1,
   ((construction_fails_on_empty_value sampleHelpers sampleNet sampleSetup
      [WithGiteaAddress "https://gitea.example.com/foo/bar"]).2 (by decide)).2.2
      "0c9c2e41-d2f9-4f9b-9c41-bebc1984d67a"⟩

/-- C15 (evaluated): on three sample bodies and one that does not decode,
with two different status codes. -/
theorem validateSlackResponse_by_body_witness :
    validateSlackResponse sampleSlackNet 200 "\x7b\"ok\":true\x7d"
      = validateSlackResponse sampleSlackNet 500 "\x7b\"ok\":true\x7d" ∧
    validateSlackResponse sampleSlackNet 500 "\x7b\"ok\":true\x7d" = none ∧
    (∃ msg, validateSlackResponse sampleSlackNet 200
        "\x7b\"ok\":false,\"error\":\"channel_not_found\"\x7d" = some msg ∧
      stringsContains msg "channel_not_found" = true) ∧
    (∃ msg, validateSlackResponse sampleSlackNet 200 "not json" = some msg) :=
  ⟨(validateSlackResponse_by_body sampleSlackNet "\x7b\"ok\":true\x7d").1 200 500,
   ((validateSlackResponse_by_body sampleSlackNet "\x7b\"ok\":true\x7d").2.1 500).2
     ⟨⟨true, ""⟩, by rfl, rfl⟩,
   (validateSlackResponse_by_body sampleSlackNet
     "\x7b\"ok\":false,\"error\":\"channel_not_found\"\x7d").2.2.1 200 ⟨false, "channel_not_found"⟩
     (by rfl) rfl,
   (validateSlackResponse_by_body sampleSlackNet "not json").2.2.2 200 "invalid character"
     (by rfl)⟩

/-! ## The retrying client (`newHTTPClient`) -/

/-- C19: every client `newHTTPClient` returns waits at least 2 seconds and at
most 30 seconds between retries, retries at most 4 times and has no timeout,
whatever the proxy and TLS options; `newHTTPClient` fails exactly when a
non-empty proxy string does not parse as a URL, and `postMessage` then returns
that error having built and sent no request. -/
theorem newHTTPClient_configuration (N : Net) (opts : postOptions) :
    (∀ c, newHTTPClient N opts = .ok c →
      c.RetryWaitMin = 2 * Second ∧ c.RetryWaitMax = 30 * Second ∧ c.RetryMax = 4 ∧
      c.Timeout = 0) ∧
    ((∃ err, newHTTPClient N opts = .error err) ↔
      opts.proxy ≠ "" ∧ ∃ perr, N.urlParse opts.proxy = .error perr) ∧
    (∀ (address : String) (payload : Payload) (os : List postOption) (err : String),
      newHTTPClient N (appliedPostOptions os) = .error err →
      postMessage N address payload os = ⟨some err, []⟩) := by
  refine ⟨?_, ?_, ?_⟩
  · intro c hc
    unfold newHTTPClient at hc
    simp only [] at hc
    split at hc
    · cases hc
    · injection hc with hc
      subst hc
      exact ⟨rfl, rfl, rfl, rfl⟩
  · unfold newHTTPClient
    by_cases hp : opts.proxy = ""
    · simp [hp]
    · cases hu : N.urlParse opts.proxy with
      | error perr => simp [hp, hu]
      | ok u => simp [hp, hu]
  · intro address payload os err herr
    have herr' : newHTTPClient N (os.foldl (fun acc o => o acc)
        { proxy := "", tlsConfig := none, requestModifier := none,
          responseValidator := defaultResponseValidator }) = .error err := herr
    simp only [postMessage, herr']

/-- C19 (evaluated): with a proxy and a TLS configuration that parse, and
with a proxy that does not. -/
theorem newHTTPClient_configuration_witness :
    (∀ c, newHTTPClient sampleNet
        { proxy := "http://proxy.example.com", tlsConfig := some ⟨1⟩, requestModifier := none,
          responseValidator := defaultResponseValidator } = .ok c →
      c.RetryWaitMin = 2 * Second ∧ c.RetryWaitMax = 30 * Second ∧ c.RetryMax = 4 ∧
      c.Timeout = 0) ∧
    (∃ err, newHTTPClient sampleBadURLNet
      { proxy := "::", tlsConfig := none, requestModifier := none,
        responseValidator := defaultResponseValidator } = .error err) ∧
    postMessage sampleBadURLNet "https://hooks.slack.com/services/x"
        (.webex ⟨"room", "text"⟩) [withProxy "::"]
      = ⟨some "unable to parse proxy URL: invalid URL", []⟩ :=
  ⟨(newHTTPClient_configuration sampleNet
      { proxy := "http://proxy.example.com", tlsConfig := some ⟨1⟩, requestModifier := none,
        responseValidator := defaultResponseValidator }).1,
   (newHTTPClient_configuration sampleBadURLNet
      { proxy := "::", tlsConfig := none, requestModifier := none,
        responseValidator := defaultResponseValidator }).2.1.2
      ⟨by decide, "invalid URL", by rfl⟩,
   (newHTTPClient_configuration sampleBadURLNet
      { proxy := "", tlsConfig := none, requestModifier := none,
        responseValidator := defaultResponseValidator }).2.2
      "https://hooks.slack.com/services/x" (.webex ⟨"room", "text"⟩) [withProxy "::"]
      "unable to parse proxy URL: invalid URL" (by rfl)⟩

/-! ## Round trip of the comment key marker -/

/-- `Post` edits the comment the scan found. -/
theorem GiteaPullRequestComment_Post_of_found (H : Helpers) (g : GiteaPullRequestComment)
    (e : Event) (n : Int) (comments : List Comment) (c : Comment)
    (hnum : g.getPullRequestNumber H e = .ok n)
    (hlist : g.Client.ListIssueComments g.Owner g.Repo n ⟨⟨1, 100⟩⟩ = .ok comments)
    (hfind : findExistingComment g.Username
      (H.formatCommentKeyMarker g.tochangeRequestComment e) comments = some c) :
    (GiteaPullRequestComment.Post H g e).calls =
      [Call.ListIssueComments g.Owner g.Repo n ⟨⟨1, 100⟩⟩,
       Call.EditIssueComment g.Owner g.Repo c.ID
         ⟨H.formatCommentBody g.tochangeRequestComment e⟩] := by
  simp only [GiteaPullRequestComment.Post, hnum, hlist, hfind]
  cases g.Client.EditIssueComment g.Owner g.Repo c.ID
    ⟨H.formatCommentBody g.tochangeRequestComment e⟩ <;> rfl

/-- `Post` creates a comment when the scan found none. -/
theorem GiteaPullRequestComment_Post_of_not_found (H : Helpers)
    (g : GiteaPullRequestComment) (e : Event) (n : Int) (comments : List Comment)
    (hnum : g.getPullRequestNumber H e = .ok n)
    (hlist : g.Client.ListIssueComments g.Owner g.Repo n ⟨⟨1, 100⟩⟩ = .ok comments)
    (hfind : findExistingComment g.Username
      (H.formatCommentKeyMarker g.tochangeRequestComment e) comments = none) :
    (GiteaPullRequestComment.Post H g e).calls =
      [Call.ListIssueComments g.Owner g.Repo n ⟨⟨1, 100⟩⟩,
       Call.CreateIssueComment g.Owner g.Repo n
         ⟨H.formatCommentBody g.tochangeRequestComment e⟩] := by
  simp only [GiteaPullRequestComment.Post, hnum, hlist, hfind]
  cases g.Client.CreateIssueComment g.Owner g.Repo n
    ⟨H.formatCommentBody g.tochangeRequestComment e⟩ <;> rfl

/-- On a page holding a comment that passes the test, the scan finds one of
the page that passes it. -/
theorem findExistingComment_of_mem (username commentKeyMarker : String)
    (comments : List Comment) (x : Comment) (hx : x ∈ comments)
    (hown : ownMarkedComment username commentKeyMarker x) :
    ∃ c, findExistingComment username commentKeyMarker comments = some c ∧ c ∈ comments ∧
      ownMarkedComment username commentKeyMarker c := by
  induction comments with
  | nil => cases hx
  | cons a rest ih =>
    by_cases ha : ownMarkedComment username commentKeyMarker a
    · refine ⟨a, ?_, List.mem_cons_self _ _, ha⟩
      simp only [findExistingComment]
      rw [if_pos ((ownMarkedComment_iff username commentKeyMarker a).2 ha)]
    · have hx' : x ∈ rest := by
        rcases List.mem_cons.1 hx with h | h
        · subst h; exact absurd hown ha
        · exact h
      obtain ⟨c, hfind, hmem, hc⟩ := ih hx'
      refine ⟨c, ?_, List.mem_cons_of_mem _ hmem, hc⟩
      simp only [findExistingComment]
      rw [if_neg (fun h => ha ((ownMarkedComment_iff username commentKeyMarker a).1 h))]
      exact hfind

/-- C11 (as amended): take a body that embeds its key marker, two events with
the same key marker on the same pull request, a first `Post` that finds no
matching comment, and a second `Post` whose first page contains the comment the
first one created, posted by the provider's `Username` with the first body.
The first `Post` creates the comment; the second finds a matching comment and
makes exactly one edit and no create, whatever the two messages; the edit is on
the created comment's id when no earlier comment of the page matches, as when
the page is the first page followed by the created comment. -/
theorem comment_key_marker_round_trip (H : Helpers) (g : GiteaPullRequestComment)
    (client2 : Client) (e1 e2 : Event) (n : Int) (page1 page2 : List Comment)
    (created : Comment)
    (hembed : bodyEmbedsMarker H)
    (hkey : H.formatCommentKeyMarker g.tochangeRequestComment e1
      = H.formatCommentKeyMarker g.tochangeRequestComment e2)
    (hn1 : g.getPullRequestNumber H e1 = .ok n)
    (hn2 : g.getPullRequestNumber H e2 = .ok n)
    (hlist1 : g.Client.ListIssueComments g.Owner g.Repo n ⟨⟨1, 100⟩⟩ = .ok page1)
    (hnone : ∀ x ∈ page1,
      ¬ ownMarkedComment g.Username (H.formatCommentKeyMarker g.tochangeRequestComment e1) x)
    (hposter : created.Poster = some ⟨g.Username⟩)
    (hbody : created.Body = H.formatCommentBody g.tochangeRequestComment e1)
    (hlist2 : client2.ListIssueComments g.Owner g.Repo n ⟨⟨1, 100⟩⟩ = .ok page2)
    (hmem : created ∈ page2) :
    (GiteaPullRequestComment.Post H g e1).calls =
      [Call.ListIssueComments g.Owner g.Repo n ⟨⟨1, 100⟩⟩,
       Call.CreateIssueComment g.Owner g.Repo n
         ⟨H.formatCommentBody g.tochangeRequestComment e1⟩] ∧
    (∃ c ∈ page2,
      ownMarkedComment g.Username (H.formatCommentKeyMarker g.tochangeRequestComment e2) c ∧
      (GiteaPullRequestComment.Post H { g with Client := client2 } e2).calls =
        [Call.ListIssueComments g.Owner g.Repo n ⟨⟨1, 100⟩⟩,
         Call.EditIssueComment g.Owner g.Repo c.ID
           ⟨H.formatCommentBody g.tochangeRequestComment e2⟩]) ∧
    (∀ pre post, page2 = pre ++ created :: post →
      (∀ x ∈ pre,
        ¬ ownMarkedComment g.Username
          (H.formatCommentKeyMarker g.tochangeRequestComment e2) x) →
      (GiteaPullRequestComment.Post H { g with Client := client2 } e2).calls =
        [Call.ListIssueComments g.Owner g.Repo n ⟨⟨1, 100⟩⟩,
         Call.EditIssueComment g.Owner g.Repo created.ID
           ⟨H.formatCommentBody g.tochangeRequestComment e2⟩]) ∧
    (page2 = page1 ++ [created] →
      (GiteaPullRequestComment.Post H { g with Client := client2 } e2).calls =
        [Call.ListIssueComments g.Owner g.Repo n ⟨⟨1, 100⟩⟩,
         Call.EditIssueComment g.Owner g.Repo created.ID
           ⟨H.formatCommentBody g.tochangeRequestComment e2⟩]) := by
  have hown : ownMarkedComment g.Username
      (H.formatCommentKeyMarker g.tochangeRequestComment e2) created := by
    refine ⟨⟨⟨g.Username⟩, hposter, rfl⟩, ?_⟩
    rw [hbody, ← hkey]
    exact hembed _ e1
  have hn2' : GiteaPullRequestComment.getPullRequestNumber H { g with Client := client2 } e2
      = .ok n := hn2
  have hsplitcase : ∀ pre post, page2 = pre ++ created :: post →
      (∀ x ∈ pre,
        ¬ ownMarkedComment g.Username
          (H.formatCommentKeyMarker g.tochangeRequestComment e2) x) →
      (GiteaPullRequestComment.Post H { g with Client := client2 } e2).calls =
        [Call.ListIssueComments g.Owner g.Repo n ⟨⟨1, 100⟩⟩,
         Call.EditIssueComment g.Owner g.Repo created.ID
           ⟨H.formatCommentBody g.tochangeRequestComment e2⟩] := by
    intro pre post hsplit hpre
    have hfind := findExistingComment_of_first g.Username
      (H.formatCommentKeyMarker g.tochangeRequestComment e2) pre post created hown hpre
    rw [← hsplit] at hfind
    exact GiteaPullRequestComment_Post_of_found H { g with Client := client2 } e2 n page2
      created hn2' hlist2 hfind
  refine ⟨?_, ?_, hsplitcase, ?_⟩
  · exact GiteaPullRequestComment_Post_of_not_found H g e1 n page1 hn1 hlist1
      (findExistingComment_of_none _ _ page1 hnone)
  · obtain ⟨c, hfind, hc, hcown⟩ := findExistingComment_of_mem g.Username
      (H.formatCommentKeyMarker g.tochangeRequestComment e2) page2 created hmem hown
    exact ⟨c, hc, hcown,
      GiteaPullRequestComment_Post_of_found H { g with Client := client2 } e2 n page2 c
        hn2' hlist2 hfind⟩
  · intro hpage
    refine hsplitcase page1 [] hpage ?_
    intro x hx
    rw [← hkey]
    exact hnone x hx

/-- C11 (counterexample): the first `Post` finds an empty page and creates its
comment; the page the second `Post` lists contains that comment, with id 9,
after another comment by `flux-bot` that carries the marker, with id 5; the
second `Post` edits comment 5, not the created one. -/
theorem comment_round_trip_earlier_match_counterexample :
    (GiteaPullRequestComment.Post sampleHelpers
        (samplePullRequestComment (sampleClient none []))
        (sampleEvent "info" "ReconciliationSucceeded" (some [("change_request", "42")]))).calls
      = [Call.ListIssueComments "foo" "bar" 42 ⟨⟨1, 100⟩⟩,
         Call.CreateIssueComment "foo" "bar" 42
           ⟨"message\n\n<!-- flux-pr-comment-key:uid-1 -->"⟩] ∧
    (⟨9, some ⟨"flux-bot"⟩, "message\n\n<!-- flux-pr-comment-key:uid-1 -->"⟩ : Comment) ∈
      [(⟨5, some ⟨"flux-bot"⟩, "older\n\n<!-- flux-pr-comment-key:uid-1 -->"⟩ : Comment),
       ⟨9, some ⟨"flux-bot"⟩, "message\n\n<!-- flux-pr-comment-key:uid-1 -->"⟩] ∧
    (GiteaPullRequestComment.Post sampleHelpers
        (samplePullRequestComment (sampleClient none
          [⟨5, some ⟨"flux-bot"⟩, "older\n\n<!-- flux-pr-comment-key:uid-1 -->"⟩,
           ⟨9, some ⟨"flux-bot"⟩, "message\n\n<!-- flux-pr-comment-key:uid-1 -->"⟩]))
        { sampleEvent "error" "ReconciliationFailed" (some [("change_request", "42")]) with
          Message := "second message" }).calls
      = [Call.ListIssueComments "foo" "bar" 42 ⟨⟨1, 100⟩⟩,
         Call.EditIssueComment "foo" "bar" 5
           ⟨"second message\n\n<!-- flux-pr-comment-key:uid-1 -->"⟩] := by
  refine ⟨by rfl, by decide, by rfl⟩

/-- The sample body ends with the sample marker. -/
theorem sampleHelpers_bodyEmbedsMarker : bodyEmbedsMarker sampleHelpers := by
  intro c e
  refine ⟨(e.Message ++ "\n\n").data, [], ?_⟩
  simp [sampleHelpers, String.data_append]

/-- C11 (evaluated): the first `Post` creates a comment on a page without a
match; the second, for an event with another message, lists that page followed
by the created comment, with id 9, and edits comment 9. -/
theorem comment_key_marker_round_trip_witness :
    (GiteaPullRequestComment.Post sampleHelpers
        (samplePullRequestComment (sampleClient none (sampleComments.take 2)))
        (sampleEvent "info" "ReconciliationSucceeded" (some [("change_request", "42")]))).calls
      = [Call.ListIssueComments "foo" "bar" 42 ⟨⟨1, 100⟩⟩,
         Call.CreateIssueComment "foo" "bar" 42
           ⟨"message\n\n<!-- flux-pr-comment-key:uid-1 -->"⟩] ∧
    (GiteaPullRequestComment.Post sampleHelpers
        { samplePullRequestComment (sampleClient none (sampleComments.take 2)) with
          Client := sampleClient none (sampleComments.take 2 ++
            [⟨9, some ⟨"flux-bot"⟩, "message\n\n<!-- flux-pr-comment-key:uid-1 -->"⟩]) }
        { sampleEvent "error" "ReconciliationFailed" (some [("change_request", "42")]) with
          Message := "second message" }).calls
      = [Call.ListIssueComments "foo" "bar" 42 ⟨⟨1, 100⟩⟩,
         Call.EditIssueComment "foo" "bar" 9
           ⟨"second message\n\n<!-- flux-pr-comment-key:uid-1 -->"⟩] :=
  have h := comment_key_marker_round_trip sampleHelpers
    (samplePullRequestComment (sampleClient none (sampleComments.take 2)))
    (sampleClient none (sampleComments.take 2 ++
      [⟨9, some ⟨"flux-bot"⟩, "message\n\n<!-- flux-pr-comment-key:uid-1 -->"⟩]))
    (sampleEvent "info" "ReconciliationSucceeded" (some [("change_request", "42")]))
    { sampleEvent "error" "ReconciliationFailed" (some [("change_request", "42")]) with
      Message := "second message" }
    42 (sampleComments.take 2)
    (sampleComments.take 2 ++
      [⟨9, some ⟨"flux-bot"⟩, "message\n\n<!-- flux-pr-comment-key:uid-1 -->"⟩])
    ⟨9, some ⟨"flux-bot"⟩, "message\n\n<!-- flux-pr-comment-key:uid-1 -->"⟩
    sampleHelpers_bodyEmbedsMarker (by rfl) (by rfl) (by rfl) (by rfl)
    (by
      intro x hx
      have hx' : x = ⟨1, some ⟨"alice"⟩, "old <!-- flux-pr-comment-key:uid-1 -->"⟩ ∨
          x = ⟨2, none, "<!-- flux-pr-comment-key:uid-1 -->"⟩ := by
        simpa [sampleComments] using hx
      rcases hx' with h | h <;> subst h <;> rintro ⟨⟨poster, hp, hname⟩, _⟩
      · cases hp
        exact absurd hname (by decide)
      · cases hp)
    (by rfl) (by rfl) (by rfl) (by decide)
  ⟨h.1, h.2.2.2 rfl⟩

/-! ## Incomplete statuses are ignored by the duplicate scan -/

/-- The scan passes over a status with an empty context, state or description. -/
theorem duplicateGiteaStatusLoop_skip (t : CreateStatusOption) (s : Status)
    (rest : List Status) (h : isCompleteStatus s = false) :
    duplicateGiteaStatusLoop t (s :: rest) = duplicateGiteaStatusLoop t rest := by
  have hskip : s.Context = "" ∨ s.State = "" ∨ s.Description = "" := by
    by_contra hne
    push_neg at hne
    rw [(isCompleteStatus_iff s).2 hne] at h
    cases h
  rw [duplicateGiteaStatusLoop, if_pos hskip]

/-- The scan gives the same answer on the complete statuses alone. -/
theorem duplicateGiteaStatusLoop_filter (t : CreateStatusOption) (ss : List Status) :
    duplicateGiteaStatusLoop t (ss.filter isCompleteStatus) = duplicateGiteaStatusLoop t ss := by
  induction ss with
  | nil => rfl
  | cons s rest ih =>
    cases hc : isCompleteStatus s with
    | false =>
      rw [List.filter_cons_of_neg (by simp [hc]), duplicateGiteaStatusLoop_skip t s rest hc, ih]
    | true =>
      rw [List.filter_cons_of_pos hc]
      have hc' := (isCompleteStatus_iff s).1 hc
      have hskip : ¬ (s.Context = "" ∨ s.State = "" ∨ s.Description = "") := by
        rintro (h | h | h)
        · exact hc'.1 h
        · exact hc'.2.1 h
        · exact hc'.2.2 h
      rw [duplicateGiteaStatusLoop, duplicateGiteaStatusLoop, if_neg hskip, if_neg hskip, ih]

/-- The scan never reports a target with an empty state or description. -/
theorem duplicateGiteaStatusLoop_incomplete_target (t : CreateStatusOption)
    (ss : List Status) (h : t.State = "" ∨ t.Description = "") :
    duplicateGiteaStatusLoop t ss = false := by
  cases hd : duplicateGiteaStatusLoop t ss with
  | false => rfl
  | true =>
    obtain ⟨s, hfind, hs, hdesc⟩ := (duplicateGiteaStatusLoop_iff t ss).1 hd
    have hp := List.find?_some hfind
    simp only [Bool.and_eq_true] at hp
    have hc := (isCompleteStatus_iff s).1 hp.1
    rcases h with h | h
    · exact absurd (hs.trans h) hc.2.1
    · exact absurd (hdesc.trans h) hc.2.2

/-- C21: `duplicateGiteaStatus` ignores incomplete entries: its result is
unchanged when every status with an empty context, state or description is
removed from the list; a status with the target's context but an empty state
or description, anywhere in the list, neither counts as a duplicate nor stops
the scan, which goes on as if the status were not there; and a target with an
empty state or description is never reported as a duplicate. -/
theorem duplicateGiteaStatus_ignores_incomplete (statuses : Option (List Status))
    (t : CreateStatusOption) :
    duplicateGiteaStatus (statuses.map (fun ss => ss.filter isCompleteStatus)) (some t)
      = duplicateGiteaStatus statuses (some t) ∧
    (∀ (before after : List Status) (s : Status), s.Context = t.Context →
      (s.State = "" ∨ s.Description = "") →
      duplicateGiteaStatus (some (before ++ s :: after)) (some t)
        = duplicateGiteaStatus (some (before ++ after)) (some t) ∧
      duplicateGiteaStatus (some [s]) (some t) = false) ∧
    ((t.State = "" ∨ t.Description = "") → duplicateGiteaStatus statuses (some t) = false) := by
  refine ⟨?_, ?_, ?_⟩
  · cases statuses with
    | none => rfl
    | some ss => exact duplicateGiteaStatusLoop_filter t ss
  · intro before after s _ hempty
    have hs : isCompleteStatus s = false := by
      cases hc : isCompleteStatus s with
      | false => rfl
      | true =>
        have hc' := (isCompleteStatus_iff s).1 hc
        rcases hempty with h | h
        · exact absurd h hc'.2.1
        · exact absurd h hc'.2.2
    constructor
    · show duplicateGiteaStatusLoop t (before ++ s :: after)
        = duplicateGiteaStatusLoop t (before ++ after)
      rw [← duplicateGiteaStatusLoop_filter t (before ++ s :: after),
        ← duplicateGiteaStatusLoop_filter t (before ++ after)]
      simp [List.filter_append, List.filter_cons, hs]
    · show duplicateGiteaStatusLoop t [s] = false
      rw [duplicateGiteaStatusLoop_skip t s [] hs]
      rfl
  · intro h
    cases statuses with
    | none => rfl
    | some ss => exact duplicateGiteaStatusLoop_incomplete_target t ss h

/-- C21 (evaluated): a `flux` status without description before a `flux`
status equal to the target is passed over, with the same answer as on the
second status alone; the first alone is no duplicate; and a target without
description is no duplicate of an identical status. -/
theorem duplicateGiteaStatus_ignores_incomplete_witness :
    (duplicateGiteaStatus
        (some ([] ++ (⟨"success", "", "flux"⟩ : Status) ::
          [⟨"success", "reconciliation succeeded", "flux"⟩]))
        (some ⟨"success", "", "reconciliation succeeded", "flux"⟩)
      = duplicateGiteaStatus
        (some ([] ++ [(⟨"success", "reconciliation succeeded", "flux"⟩ : Status)]))
        (some ⟨"success", "", "reconciliation succeeded", "flux"⟩) ∧
     duplicateGiteaStatus (some [⟨"success", "", "flux"⟩])
        (some ⟨"success", "", "reconciliation succeeded", "flux"⟩) = false) ∧
    duplicateGiteaStatus (some [⟨"success", "", "flux"⟩])
      (some ⟨"success", "", "", "flux"⟩) = false ∧
    duplicateGiteaStatus
        (some [⟨"success", "", "flux"⟩, ⟨"success", "reconciliation succeeded", "flux"⟩])
        (some ⟨"success", "", "reconciliation succeeded", "flux"⟩) = true :=
  ⟨(duplicateGiteaStatus_ignores_incomplete none
      ⟨"success", "", "reconciliation succeeded", "flux"⟩).2.1 []
      [⟨"success", "reconciliation succeeded", "flux"⟩] ⟨"success", "", "flux"⟩ rfl
      (Or.inr rfl),
   (duplicateGiteaStatus_ignores_incomplete (some [⟨"success", "", "flux"⟩])
      ⟨"success", "", "", "flux"⟩).2.2 (Or.inr rfl),
   by decide⟩

/-! ## An identical status with an empty description is created again -/

/-- C4 (at the failing inputs): when the description computed for the event is
empty, `Gitea.Post` makes a create-status call whatever the listed page holds,
also when the page's only entry with the label as context has the target's
state and its empty description, where the claim and the comment on
`duplicateGiteaStatus` say duplicate and no write. -/
theorem Gitea_Post_empty_description_creates (H : Helpers) (g : Gitea) (e : Event)
    (r rev state : String) (statuses : Option (List Status))
    (hrev : e.GetRevision = some r) (hparse : H.parseRevision r = .ok rev)
    (hstate : toGiteaState e = (state, none))
    (hlist : g.Client.ListStatuses g.Owner g.Repo rev ⟨⟨0, 50⟩⟩ = .ok statuses)
    (hdesc : (H.formatNameAndDescription e).2 = "") :
    (Gitea.Post H g e).calls =
      [Call.ListStatuses g.Owner g.Repo rev ⟨⟨0, 50⟩⟩,
       Call.CreateStatus g.Owner g.Repo rev ⟨state, "", "", g.CommitStatus⟩] := by
  have hdup : duplicateGiteaStatus statuses
      (some ⟨state, "", (H.formatNameAndDescription e).2, g.CommitStatus⟩) = false := by
    cases statuses with
    | none => rfl
    | some ss => exact duplicateGiteaStatusLoop_incomplete_target _ ss (Or.inr hdesc)
  rw [Gitea_Post_of_not_duplicate H g e r rev state statuses hrev hparse hstate hlist hdup,
    hdesc]

/-- C4 (evaluated): the page holds exactly one `flux` entry, and its state and
empty description equal the target's, yet `Gitea.Post` lists, creates the
status again and returns nil. -/
theorem Gitea_Post_empty_description_creates_witness :
    ([⟨"success", "", "flux"⟩] : List Status).filter (fun x => x.Context == "flux")
      = [⟨"success", "", "flux"⟩] ∧
    toGiteaState (sampleEvent "info" "" sampleRevisionMetadata) = ("success", none) ∧
    (sampleHelpers.formatNameAndDescription
      (sampleEvent "info" "" sampleRevisionMetadata)).2 = "" ∧
    (Gitea.Post sampleHelpers (sampleGitea (sampleClient (some [⟨"success", "", "flux"⟩]) []))
        (sampleEvent "info" "" sampleRevisionMetadata)).calls
      = [Call.ListStatuses "foo" "bar" "abc123" ⟨⟨0, 50⟩⟩,
          Call.CreateStatus "foo" "bar" "abc123" ⟨"success", "", "", "flux"⟩] ∧
    (Gitea.Post sampleHelpers (sampleGitea (sampleClient (some [⟨"success", "", "flux"⟩]) []))
        (sampleEvent "info" "" sampleRevisionMetadata)).err = none :=
  ⟨by decide, by decide, by rfl,
   Gitea_Post_empty_description_creates sampleHelpers
     (sampleGitea (sampleClient (some [⟨"success", "", "flux"⟩]) []))
     (sampleEvent "info" "" sampleRevisionMetadata) "main@sha1:abc123" "abc123" "success"
     (some [⟨"success", "", "flux"⟩]) (by rfl) (by rfl) (by rfl) (by rfl) (by rfl),
   by rfl⟩

end Notifier
